import Mathlib

set_option maxRecDepth 100000

/-!
Verification development for the provider-routing, caching and
metadata-validation core of a blockchain-governance dashboard backend.

The Rust sources are shallowly embedded: Rust strings become `List Char`,
machine integers become `Nat` with explicit range checks where overflow
matters (checked arithmetic is modelled by `Option`), fallible functions
return `Except`, and upstream I/O is passed in as explicit oracle
arguments.  Each embedded definition mirrors one Rust item and keeps its
name where Lean allows it.
-/

/-- Rust string, modelled as its character list. -/
abbrev Str := List Char

/-- Character list of a Lean string literal (embedding helper). -/
def str (s : String) : Str := s.data

/-- Rust char::to_ascii_lowercase. -/
def asciiLowerChar (c : Char) : Char :=
  if 'A' ≤ c ∧ c ≤ 'Z' then Char.ofNat (c.toNat + 32) else c

/-- Rust str::to_ascii_lowercase (also models str::to_lowercase on ASCII data,
which is the only data the embedded code lowercases). -/
def to_ascii_lowercase (s : Str) : Str := s.map asciiLowerChar

/-- Rust str::starts_with. -/
def starts_with (s pre : Str) : Bool := pre.isPrefixOf s

/-- One decimal digit as a character. -/
def digitCh (d : Nat) : Char :=
  match d with
  | 0 => '0' | 1 => '1' | 2 => '2' | 3 => '3' | 4 => '4'
  | 5 => '5' | 6 => '6' | 7 => '7' | 8 => '8' | _ => '9'

/-- Fuelled core of decimal rendering (most significant digit first). -/
def decCore : Nat → Nat → Str → Str
  | 0, _, acc => acc
  | fuel + 1, n, acc =>
    if n < 10 then digitCh n :: acc
    else decCore fuel (n / 10) (digitCh (n % 10) :: acc)

/-- Decimal rendering of an unsigned integer, as Rust Display formats u8, u32
and u64 values. -/
def decNat (n : Nat) : Str := decCore (n + 1) n []

/-- Rust bool Display. -/
def boolStr (b : Bool) : Str := if b then str "true" else str "false"

/-- Numeric value of a decimal digit list (inverse of decNat, used only in
proofs). -/
def decVal (s : Str) : Nat := s.foldl (fun a c => 10 * a + (c.toNat - 48)) 0

/-- The u64 range bound. -/
def U64_LIMIT : Nat := 2 ^ 64

/-- Rust u64::checked_mul. -/
def checkedMul64 (a b : Nat) : Option Nat :=
  if a * b < U64_LIMIT then some (a * b) else none

/-- Rust u64::checked_add. -/
def checkedAdd64 (a b : Nat) : Option Nat :=
  if a + b < U64_LIMIT then some (a + b) else none

/-- Rust u64::checked_sub. -/
def checkedSub64 (a b : Nat) : Option Nat :=
  if b ≤ a then some (a - b) else none

/-! ## Cache manager (src/backend/src/cache/mod.rs) -/

/-- CacheManager::hit_rate.  The Rust function computes in f64; every
quantity the claims touch is an exactly representable small rational, so the
arithmetic is modelled in the rationals. -/
def hit_rate (hits misses : Nat) : ℚ :=
  let total := hits + misses
  if total = 0 then 0 else (hits : ℚ) / (total : ℚ) * 100

/-- Mutable state of CacheManager: the moka byte store is modelled as an
association list from key strings to payload bytes (newest binding first,
insertion shadows), plus the enabled flag and the atomic hit/miss counters. -/
structure CacheManagerState where
  enabled : Bool
  store : List (Str × List Nat)
  hits : Nat
  misses : Nat
deriving DecidableEq

/-- CacheManager::new. -/
def CacheManager_new (enabled : Bool) : CacheManagerState :=
  { enabled := enabled, store := [], hits := 0, misses := 0 }

/-- Association-list lookup modelling moka Cache::get on key strings. -/
def storeGet (store : List (Str × List Nat)) (k : Str) : Option (List Nat) :=
  match store with
  | [] => none
  | (k', v) :: rest => if k' = k then some v else storeGet rest k

/-- Association-list insert modelling moka Cache::insert (shadowing). -/
def storeInsert (store : List (Str × List Nat)) (k : Str) (v : List Nat) :
    List (Str × List Nat) :=
  (k, v) :: store

/-- Association-list removal modelling moka Cache::invalidate. -/
def storeInvalidate (store : List (Str × List Nat)) (k : Str) :
    List (Str × List Nat) :=
  store.filter (fun kv => kv.1 ≠ k)

/-- CacheManager::get.  The serde deserialization of the cached bytes is
passed in as the oracle `deser`; a failed deserialization counts a miss. -/
def CacheManager_get (s : CacheManagerState) (key : Str)
    (deser : List Nat → Option α) : Option α × CacheManagerState :=
  if s.enabled = false then (none, s)
  else
    match storeGet s.store key with
    | some bytes =>
      match deser bytes with
      | some v => (some v, { s with hits := s.hits + 1 })
      | none => (none, { s with misses := s.misses + 1 })
    | none => (none, { s with misses := s.misses + 1 })

/-- CacheManager::set.  serde_json::to_vec is passed in as the oracle
result `ser` (none models a serialization failure, which only logs). -/
def CacheManager_set (s : CacheManagerState) (key : Str)
    (ser : Option (List Nat)) : CacheManagerState :=
  if s.enabled = false then s
  else
    match ser with
    | some bytes => { s with store := storeInsert s.store key bytes }
    | none => s

/-- CacheManager::invalidate. -/
def CacheManager_invalidate (s : CacheManagerState) (key : Str) :
    CacheManagerState :=
  if s.enabled = false then s
  else { s with store := storeInvalidate s.store key }

/-- CacheManager::clear. -/
def CacheManager_clear (s : CacheManagerState) : CacheManagerState :=
  if s.enabled = false then s
  else { s with store := [] }

/-- One interface operation against the cache manager, with its oracles. -/
inductive CacheOp where
  | get (key : Str) (deser : List Nat → Option Unit)
  | set (key : Str) (ser : Option (List Nat))
  | invalidate (key : Str)
  | clear

/-- Run one operation (the returned value of get is dropped here; the
per-operation return is analysed separately). -/
def runCacheOp (s : CacheManagerState) : CacheOp → CacheManagerState
  | .get key deser => (CacheManager_get s key deser).2
  | .set key ser => CacheManager_set s key ser
  | .invalidate key => CacheManager_invalidate s key
  | .clear => CacheManager_clear s

/-- Run a sequence of interface operations. -/
def runCacheOps (s : CacheManagerState) (ops : List CacheOp) :
    CacheManagerState :=
  ops.foldl runCacheOp s

/-! ## Epoch start-time inference
(CachedProviderRouter::infer_epoch_start_time,
src/backend/src/providers/cached_router.rs lines 906-940) -/

/-- Fixed Cardano epoch duration used by the router. -/
def CARDANO_EPOCH_DURATION_SECONDS : Nat := 432000

/-- Epoch distance between the queried epoch and an anchor (the
delta_epochs computation of the loop body of infer_epoch_start_time). -/
def epochDist (epoch : Nat) (anchor : Nat × Nat) : Nat :=
  if anchor.1 ≤ epoch then epoch - anchor.1 else anchor.1 - epoch

/-- Candidate start time contributed by one known anchor: the checked
offset arithmetic of the loop body of infer_epoch_start_time. -/
def epochCandidate (epoch : Nat) (anchor : Nat × Nat) : Option Nat :=
  match checkedMul64 (epochDist epoch anchor) CARDANO_EPOCH_DURATION_SECONDS with
  | none => none
  | some off =>
    if anchor.1 ≤ epoch then checkedAdd64 anchor.2 off
    else checkedSub64 anchor.2 off

/-- Loop body of infer_epoch_start_time: keep the best (smallest-distance)
defined candidate, preferring the earlier-seen anchor on ties. -/
def inferStep (epoch : Nat) (best : Option (Nat × Nat)) (anchor : Nat × Nat) :
    Option (Nat × Nat) :=
  match epochCandidate epoch anchor with
  | none => best
  | some cand =>
    match best with
    | some (bestDelta, bestTime) =>
      if bestDelta ≤ epochDist epoch anchor then some (bestDelta, bestTime)
      else some (epochDist epoch anchor, cand)
    | none => some (epochDist epoch anchor, cand)

/-- CachedProviderRouter::infer_epoch_start_time.  The HashMap of known
epoch start times is modelled as an association list with distinct keys;
list order stands for the arbitrary iteration order of the map. -/
def infer_epoch_start_time (epoch : Nat) (known : List (Nat × Nat)) :
    Option Nat :=
  match known.lookup epoch with
  | some time => some time
  | none => (known.foldl (inferStep epoch) none).map (fun best => best.2)

/-! ## Governance data model (src/backend/src/models/drep.rs) -/

/-- Minimal JSON value model for serde_json::Value. -/
inductive Json where
  | null
  | boolean (b : Bool)
  | number (n : ℚ)
  | string (s : Str)
  | array (xs : List Json)
  | object (fields : List (Str × Json))

/-- models::drep::DRepMetadata (a flattened JSON payload). -/
structure DRepMetadata where
  extra : Json

/-- models::drep::DRepAnchor. -/
structure DRepAnchor where
  url : Str
  data_hash : Str

/-- models::drep::DRepExternalReference. -/
structure DRepExternalReference where
  reference_type : Option Str
  label : Option Str
  uri : Option Str
deriving DecidableEq

/-- models::drep::DRep, with every field of the Rust struct. -/
structure DRep where
  drep_id : Str
  drep_hash : Option Str
  hex : Option Str
  view : Option Str
  url : Option Str
  metadata : Option DRepMetadata
  anchor : Option DRepAnchor
  voting_power : Option Str
  voting_power_active : Option Str
  amount : Option Str
  status : Option Str
  active : Option Bool
  active_epoch : Option Nat
  last_active_epoch : Option Nat
  has_script : Option Bool
  retired : Option Bool
  expired : Option Bool
  registration_tx_hash : Option Str
  registration_epoch : Option Nat
  delegator_count : Option Nat
  vote_count : Option Nat
  last_vote_epoch : Option Nat
  has_profile : Option Bool
  given_name : Option Str
  objectives : Option Str
  motivations : Option Str
  qualifications : Option Str
  votes_last_year : Option Nat
  identity_references : Option (List DRepExternalReference)
  link_references : Option (List DRepExternalReference)
  image_url : Option Str
  image_hash : Option Str
  latest_registration_date : Option Str
  latest_tx_hash : Option Str
  deposit : Option Str
  metadata_error : Option Str
  payment_address : Option Str
  is_script_based : Option Bool

/-- A DRep with the given id and every optional field absent (embedding
helper for concrete instances). -/
def emptyDRep (id : Str) : DRep :=
  { drep_id := id, drep_hash := none, hex := none, view := none, url := none
    metadata := none, anchor := none, voting_power := none
    voting_power_active := none, amount := none, status := none, active := none
    active_epoch := none, last_active_epoch := none, has_script := none
    retired := none, expired := none, registration_tx_hash := none
    registration_epoch := none, delegator_count := none, vote_count := none
    last_vote_epoch := none, has_profile := none, given_name := none
    objectives := none, motivations := none, qualifications := none
    votes_last_year := none, identity_references := none
    link_references := none, image_url := none, image_hash := none
    latest_registration_date := none, latest_tx_hash := none, deposit := none
    metadata_error := none, payment_address := none, is_script_based := none }

/-- providers::govtools::GovToolsEnrichment. -/
structure GovToolsEnrichment where
  given_name : Option Str
  objectives : Option Str
  motivations : Option Str
  qualifications : Option Str
  votes_last_year : Option Nat
  identity_references : List DRepExternalReference
  link_references : List DRepExternalReference
  image_url : Option Str
  image_hash : Option Str
  latest_registration_date : Option Str
  latest_tx_hash : Option Str
  deposit : Option Str
  metadata_error : Option Str
  payment_address : Option Str
  is_script_based : Option Bool

/-- An enrichment profile with every field absent (embedding helper). -/
def emptyEnrichment : GovToolsEnrichment :=
  { given_name := none, objectives := none, motivations := none
    qualifications := none, votes_last_year := none, identity_references := []
    link_references := [], image_url := none, image_hash := none
    latest_registration_date := none, latest_tx_hash := none, deposit := none
    metadata_error := none, payment_address := none, is_script_based := none }

/-- The Ok(Some(enrichment)) arm of CachedProviderRouter::enrich_drep
(src/backend/src/providers/cached_router.rs lines 1022-1122): the
apply-if-absent merge of an enrichment profile into a delegate, the
extension of the two reference lists, and the has_profile recomputation. -/
def applyIfAbsent (old incoming : Option α) : Option α :=
  if old.isNone then incoming else old

/-- The Ok(Some(enrichment)) arm of CachedProviderRouter::enrich_drep
continued: each Rust statement guards one disjoint field, so the statement
sequence is rendered as one simultaneous record update (the has_profile_data
flag reads the post-merge scalar fields, exactly as in the source). -/
def applyGovToolsEnrichment (d : DRep) (e : GovToolsEnrichment) : DRep :=
  let given_name := applyIfAbsent d.given_name e.given_name
  let objectives := applyIfAbsent d.objectives e.objectives
  let motivations := applyIfAbsent d.motivations e.motivations
  let image_url := applyIfAbsent d.image_url e.image_url
  let hasProfileData : Bool :=
    (match given_name with | some t => !t.isEmpty | none => false) ||
    (match objectives with | some t => !t.isEmpty | none => false) ||
    (match motivations with | some t => !t.isEmpty | none => false) ||
    (match image_url with | some t => !t.isEmpty | none => false) ||
    !e.identity_references.isEmpty
  { d with
    given_name := given_name
    objectives := objectives
    motivations := motivations
    qualifications := applyIfAbsent d.qualifications e.qualifications
    image_url := image_url
    image_hash := applyIfAbsent d.image_hash e.image_hash
    latest_registration_date :=
      applyIfAbsent d.latest_registration_date e.latest_registration_date
    latest_tx_hash := applyIfAbsent d.latest_tx_hash e.latest_tx_hash
    deposit := applyIfAbsent d.deposit e.deposit
    metadata_error := applyIfAbsent d.metadata_error e.metadata_error
    payment_address := applyIfAbsent d.payment_address e.payment_address
    is_script_based := applyIfAbsent d.is_script_based e.is_script_based
    votes_last_year := applyIfAbsent d.votes_last_year e.votes_last_year
    identity_references :=
      if !e.identity_references.isEmpty then
        match d.identity_references with
        | some existing => some (existing ++ e.identity_references)
        | none => some e.identity_references
      else d.identity_references
    link_references :=
      if !e.link_references.isEmpty then
        match d.link_references with
        | some existing => some (existing ++ e.link_references)
        | none => some e.link_references
      else d.link_references
    has_profile := if hasProfileData then some true else d.has_profile }

/-- models::drep::DRepsPage. -/
structure DRepsPage where
  dreps : List DRep
  has_more : Bool
  total : Option Nat

/-! ## Composed two-backend source (src/backend/src/providers/router.rs) -/

/-- ProviderRouter::get_dreps_page (lines 29-43): try the preferred Koios
backend, accept its answer only when Ok and non-empty, otherwise fall back
to Blockfrost.  The two upstream call results are oracle arguments; the
returned flag records whether the Blockfrost fallback was consulted. -/
def ProviderRouter_get_dreps_page (koios blockfrost : Except Unit DRepsPage) :
    Except Unit DRepsPage × Bool :=
  match koios with
  | .ok result =>
    if !result.dreps.isEmpty then (.ok result, false) else (blockfrost, true)
  | .error _ => (blockfrost, true)

/-! ## Hex codec (the hex crate as used by utils/drep_id.rs) -/

/-- Error type for the embedded codec and identifier functions. -/
inductive CodecError where
  | missingSeparator
  | invalidChar
  | invalidChecksum
  | invalidHrp
  | mixedCase
  | nonAscii
  | invalidHex
  | invalidId (id : Str)
deriving DecidableEq

/-- Lowercase hex digit of a value below 16. -/
def hexDigitChar (d : Nat) : Char :=
  match d with
  | 0 => '0' | 1 => '1' | 2 => '2' | 3 => '3' | 4 => '4'
  | 5 => '5' | 6 => '6' | 7 => '7' | 8 => '8' | 9 => '9'
  | 10 => 'a' | 11 => 'b' | 12 => 'c' | 13 => 'd' | 14 => 'e' | _ => 'f'

/-- hex::encode: lowercase hex rendering of a byte list. -/
def hexEncode (bytes : List Nat) : Str :=
  bytes.foldr (fun b acc => hexDigitChar (b / 16) :: hexDigitChar (b % 16) :: acc) []

/-- Value of one hex digit character, if any. -/
def hexDigitVal (c : Char) : Option Nat :=
  if '0' ≤ c ∧ c ≤ '9' then some (c.toNat - 48)
  else if 'a' ≤ c ∧ c ≤ 'f' then some (c.toNat - 87)
  else if 'A' ≤ c ∧ c ≤ 'F' then some (c.toNat - 55)
  else none

/-- hex::decode: parse pairs of hex digits into bytes. -/
def hexDecode : Str → Except CodecError (List Nat)
  | [] => .ok []
  | [_] => .error .invalidHex
  | c1 :: c2 :: rest =>
    match hexDigitVal c1, hexDigitVal c2, hexDecode rest with
    | some v1, some v2, .ok bytes => .ok ((v1 * 16 + v2) :: bytes)
    | _, _, _ => .error .invalidHex

/-! ## Bech32 codec (model of the bech32 crate, v0.11, as wrapped by
src/backend/src/utils/bech32.rs: decode accepts the Bech32 and Bech32m
checksum variants, encode uses the Bech32 checksum) -/

/-- The bech32 data-part character set. -/
def CHARSET : Str := str "qpzry9x8gf2tvdw0s3jn54khce6mua7l"

/-- Character for a 5-bit value. -/
def charsetChar (v : Nat) : Char := CHARSET.getD v 'q'

def charsetIndexAux (c : Char) : Str → Option Nat
  | [] => none
  | x :: rest => if x = c then some 0 else (charsetIndexAux c rest).map (· + 1)

/-- Index of a character in the bech32 character set, if any. -/
def charsetIndex (c : Char) : Option Nat := charsetIndexAux c CHARSET

/-- Map every data-part character to its 5-bit value, failing on a
character outside the character set. -/
def mapCharsetVals : Str → Option (List Nat)
  | [] => some []
  | c :: rest =>
    match charsetIndex c, mapCharsetVals rest with
    | some v, some vs => some (v :: vs)
    | _, _ => none

/-- One step of the bech32 checksum polymod (BIP-173). -/
def polymodStep (chk v : Nat) : Nat :=
  let b := chk >>> 25
  let c0 := ((chk &&& 0x1ffffff) <<< 5) ^^^ v
  let c1 := if b &&& 1 ≠ 0 then c0 ^^^ 0x3b6a57b2 else c0
  let c2 := if b &&& 2 ≠ 0 then c1 ^^^ 0x26508e6d else c1
  let c3 := if b &&& 4 ≠ 0 then c2 ^^^ 0x1ea119fa else c2
  let c4 := if b &&& 8 ≠ 0 then c3 ^^^ 0x3d4233dd else c3
  if b &&& 16 ≠ 0 then c4 ^^^ 0x2a1462b3 else c4

/-- Polymod fold from an arbitrary starting register. -/
def polymodAux (chk : Nat) (vs : List Nat) : Nat := vs.foldl polymodStep chk

/-- The bech32 checksum polymod. -/
def polymod (vs : List Nat) : Nat := polymodAux 1 vs

/-- Human-readable-part expansion feeding the polymod. -/
def hrpExpand (hrp : Str) : List Nat :=
  hrp.map (fun c => c.toNat >>> 5) ++ [0] ++ hrp.map (fun c => c.toNat &&& 31)

/-- Residue of the Bech32 checksum variant. -/
def BECH32_CONST : Nat := 1

/-- Residue of the Bech32m checksum variant. -/
def BECH32M_CONST : Nat := 0x2bc830a3

/-- The six checksum field elements appended by bech32 encode. -/
def createChecksum (hrp : Str) (data : List Nat) : List Nat :=
  let pm := polymod (hrpExpand hrp ++ data ++ [0, 0, 0, 0, 0, 0]) ^^^ BECH32_CONST
  [(pm >>> 25) &&& 31, (pm >>> 20) &&& 31, (pm >>> 15) &&& 31,
   (pm >>> 10) &&& 31, (pm >>> 5) &&& 31, pm &&& 31]

def bit (b : Bool) : Nat := if b then 1 else 0

/-- Bits of one byte, most significant first. -/
def byteToBits (b : Nat) : List Bool :=
  [b.testBit 7, b.testBit 6, b.testBit 5, b.testBit 4,
   b.testBit 3, b.testBit 2, b.testBit 1, b.testBit 0]

def bytesToBits (bytes : List Nat) : List Bool := (bytes.map byteToBits).flatten

/-- One 5-bit field element from five bits, most significant first. -/
def fe5 (b0 b1 b2 b3 b4 : Bool) : Nat :=
  16 * bit b0 + 8 * bit b1 + 4 * bit b2 + 2 * bit b3 + bit b4

/-- Regroup a bit stream into 5-bit field elements, zero-padding the final
group (the byte-to-field-element direction of the crate). -/
def bitsToFes : List Bool → List Nat
  | b0 :: b1 :: b2 :: b3 :: b4 :: rest => fe5 b0 b1 b2 b3 b4 :: bitsToFes rest
  | [] => []
  | [b0] => [fe5 b0 false false false false]
  | [b0, b1] => [fe5 b0 b1 false false false]
  | [b0, b1, b2] => [fe5 b0 b1 b2 false false]
  | [b0, b1, b2, b3] => [fe5 b0 b1 b2 b3 false]

/-- Bits of one 5-bit field element, most significant first. -/
def feToBits (v : Nat) : List Bool :=
  [v.testBit 4, v.testBit 3, v.testBit 2, v.testBit 1, v.testBit 0]

def fesToBits (fes : List Nat) : List Bool := (fes.map feToBits).flatten

def byteFromBits (b0 b1 b2 b3 b4 b5 b6 b7 : Bool) : Nat :=
  128 * bit b0 + 64 * bit b1 + 32 * bit b2 + 16 * bit b3 +
  8 * bit b4 + 4 * bit b5 + 2 * bit b6 + bit b7

/-- Regroup a bit stream into bytes, discarding a final group of fewer
than eight bits (the field-element-to-byte direction of the crate). -/
def bitsToBytes : List Bool → List Nat
  | b0 :: b1 :: b2 :: b3 :: b4 :: b5 :: b6 :: b7 :: rest =>
    byteFromBits b0 b1 b2 b3 b4 b5 b6 b7 :: bitsToBytes rest
  | _ => []

/-- 8-bit to 5-bit conversion with padding. -/
def bytesToFes (bytes : List Nat) : List Nat := bitsToFes (bytesToBits bytes)

/-- 5-bit to 8-bit conversion, dropping the padding. -/
def fesToBytes (fes : List Nat) : List Nat := bitsToBytes (fesToBits fes)

/-- Hrp::parse validity: 1 to 83 characters, each in the
ASCII range 33-126. -/
def hrpValid (hrp : Str) : Bool :=
  !hrp.isEmpty && hrp.length ≤ 83 &&
    hrp.all (fun c => 33 ≤ c.toNat && c.toNat ≤ 126)

/-- utils::bech32::encode_bech32 (bech32 crate encode with the Bech32
checksum; the output is the lowercase hrp, the separator and the encoded
data plus checksum). -/
def encode_bech32 (hrp : Str) (bytes : List Nat) : Except CodecError Str :=
  if hrpValid hrp then
    let data := bytesToFes bytes
    .ok (hrp ++ '1' :: (data ++ createChecksum hrp data).map charsetChar)
  else .error .invalidHrp

/-- Split a candidate bech32 string at its last separator. -/
def lastSepSplit (s : Str) : Option (Str × Str) :=
  let r := s.reverse
  match r.dropWhile (fun c => c ≠ '1') with
  | [] => none
  | _ :: revHrp => some (revHrp.reverse, (r.takeWhile (fun c => c ≠ '1')).reverse)

def hasUpperChar (s : Str) : Bool := s.any (fun c => 'A' ≤ c ∧ c ≤ 'Z')

def hasLowerChar (s : Str) : Bool := s.any (fun c => 'a' ≤ c ∧ c ≤ 'z')

/-- utils::bech32::decode_bech32 (bech32 crate decode): rejects non-ASCII
and mixed-case input, case-folds, splits at the last separator, validates
the hrp, the data-part characters and the checksum (Bech32 or Bech32m
residue), and converts the payload field elements to bytes. -/
def decode_bech32 (s : Str) : Except CodecError (Str × List Nat) :=
  if !s.all (fun c => c.toNat ≤ 127) then .error .nonAscii
  else if hasUpperChar s && hasLowerChar s then .error .mixedCase
  else
    let t := to_ascii_lowercase s
    match lastSepSplit t with
    | none => .error .missingSeparator
    | some (hrp, dataPart) =>
      if !hrpValid hrp then .error .invalidHrp
      else if dataPart.length < 6 then .error .invalidChecksum
      else
        match mapCharsetVals dataPart with
        | none => .error .invalidChar
        | some vals =>
          let residue := polymod (hrpExpand hrp ++ vals)
          if residue = BECH32_CONST ∨ residue = BECH32M_CONST then
            .ok (hrp, fesToBytes (vals.take (vals.length - 6)))
          else .error .invalidChecksum


/-- Decidable equality for Except results (used to evaluate the embedded
fallible functions on concrete inputs). -/
instance {ε α : Type} [DecidableEq ε] [DecidableEq α] : DecidableEq (Except ε α)
  | .ok a, .ok b =>
    if h : a = b then .isTrue (by rw [h])
    else .isFalse (by intro hh; cases hh; exact h rfl)
  | .ok _, .error _ => .isFalse (by intro h; cases h)
  | .error _, .ok _ => .isFalse (by intro h; cases h)
  | .error a, .error b =>
    if h : a = b then .isTrue (by rw [h])
    else .isFalse (by intro hh; cases hh; exact h rfl)

/-! ## Delegate identifier codec (src/backend/src/utils/drep_id.rs) -/

def SPECIAL_SYSTEM_DREPS : List Str :=
  [str "drep_always_abstain", str "drep_always_no_confidence",
   str "drep_always_yes", str "drep_always_no"]

def is_special_system_drep (drep_id : Str) : Bool :=
  SPECIAL_SYSTEM_DREPS.contains drep_id

def is_valid_drep_id (bech_id : Str) : Bool :=
  is_special_system_drep bech_id ||
    (starts_with bech_id (str "drep1") ||
      starts_with bech_id (str "drep_script1"))

def decode_drep_id_to_hex (bech_id : Str) : Except CodecError Str :=
  match decode_bech32 bech_id with
  | .ok (_, bytes) => .ok (hexEncode bytes)
  | .error e => .error e

def is_hex_id_cip105 (hex_id : Str) : Bool := hex_id.length == 56

def is_bech_id_script_based (bech32_id : Str) (is_cip105 : Bool) : Bool :=
  if starts_with bech32_id (str "drep_script1") then true
  else
    match decode_drep_id_to_hex bech32_id with
    | .error _ => false
    | .ok hex_encoded =>
      if !is_cip105 && starts_with hex_encoded (str "23") then true else false

def hex_to_bech32 (hex_id : Str) (is_script use_cip129 : Bool) :
    Except CodecError Str :=
  match hexDecode hex_id with
  | .error e => .error e
  | .ok bytes =>
    if !use_cip129 && is_hex_id_cip105 hex_id then
      encode_bech32 (if is_script then str "drep_script" else str "drep") bytes
    else
      encode_bech32 (str "drep") bytes

def convert_cip105_to_cip129 (cip105_id : Str) : Except CodecError Str :=
  match decode_drep_id_to_hex cip105_id with
  | .error e => .error e
  | .ok hex_encoded_id =>
    if !is_hex_id_cip105 hex_encoded_id then .ok cip105_id
    else
      let is_script_based := is_bech_id_script_based cip105_id true
      hex_to_bech32 ((if is_script_based then str "23" else str "22")
        ++ hex_encoded_id) false true

def convert_cip129_to_cip105 (cip129_id : Str) : Except CodecError Str :=
  match decode_drep_id_to_hex cip129_id with
  | .error e => .error e
  | .ok hex_encoded_id =>
    if is_hex_id_cip105 hex_encoded_id then .ok cip129_id
    else
      hex_to_bech32 (hex_encoded_id.drop 2)
        (starts_with hex_encoded_id (str "23")) false

def normalize_to_cip129 (drep_id : Str) : Except CodecError Str :=
  if is_special_system_drep drep_id then .ok drep_id
  else if !is_valid_drep_id drep_id then .error (.invalidId drep_id)
  else
    match decode_drep_id_to_hex drep_id with
    | .error e => .error e
    | .ok hex_encoded_id =>
      if is_hex_id_cip105 hex_encoded_id then convert_cip105_to_cip129 drep_id
      else .ok drep_id

def convert_to_cip105 (drep_id : Str) : Except CodecError Str :=
  if !is_valid_drep_id drep_id then .error (.invalidId drep_id)
  else
    match decode_drep_id_to_hex drep_id with
    | .error e => .error e
    | .ok hex_encoded_id =>
      if is_hex_id_cip105 hex_encoded_id then .ok drep_id
      else convert_cip129_to_cip105 drep_id

def convert_to_cip129 (drep_id : Str) : Except CodecError Str :=
  if !is_valid_drep_id drep_id then .error (.invalidId drep_id)
  else
    match decode_drep_id_to_hex drep_id with
    | .error e => .error e
    | .ok hex_encoded_id =>
      if !is_hex_id_cip105 hex_encoded_id then .ok drep_id
      else convert_cip105_to_cip129 drep_id


/-- The string produced by a successful bech32 encode (hrp, separator,
data characters and checksum characters). -/
def bech32Render (hrp : Str) (bytes : List Nat) : Str :=
  hrp ++ '1' ::
    (bytesToFes bytes ++ createChecksum hrp (bytesToFes bytes)).map charsetChar


/-! ## BLAKE2b-256 (model of the blake2b_simd crate as configured by the
metadata validator: unkeyed, 32-byte digest, RFC 7693) -/

/-- 64-bit truncating addition. -/
def add64 (a b : Nat) : Nat := (a + b) % U64_LIMIT

/-- 64-bit right rotation. -/
def rotr64 (x n : Nat) : Nat := (x >>> n) ||| ((x <<< (64 - n)) % U64_LIMIT)

/-- BLAKE2b initialization vector. -/
def BLAKE2B_IV : List Nat :=
  [0x6a09e667f3bcc908, 0xbb67ae8584caa73b, 0x3c6ef372fe94f82b,
   0xa54ff53a5f1d36f1, 0x510e527fade682d1, 0x9b05688c2b3e6c1f,
   0x1f83d9abfb41bd6b, 0x5be0cd19137e2179]

/-- BLAKE2b message schedule. -/
def BLAKE2B_SIGMA : List (List Nat) :=
  [[0, 1, 2, 3, 4, 5, 6, 7, 8, 9, 10, 11, 12, 13, 14, 15],
   [14, 10, 4, 8, 9, 15, 13, 6, 1, 12, 0, 2, 11, 7, 5, 3],
   [11, 8, 12, 0, 5, 2, 15, 13, 10, 14, 3, 6, 7, 1, 9, 4],
   [7, 9, 3, 1, 13, 12, 11, 14, 2, 6, 5, 10, 4, 0, 15, 8],
   [9, 0, 5, 7, 2, 4, 10, 15, 14, 1, 11, 12, 6, 8, 3, 13],
   [2, 12, 6, 10, 0, 11, 8, 3, 4, 13, 7, 5, 15, 14, 1, 9],
   [12, 5, 1, 15, 14, 13, 4, 10, 0, 7, 6, 3, 9, 2, 8, 11],
   [13, 11, 7, 14, 12, 1, 3, 9, 5, 0, 15, 4, 8, 6, 2, 10],
   [6, 15, 14, 9, 11, 3, 0, 8, 12, 2, 13, 7, 1, 4, 10, 5],
   [10, 2, 8, 4, 7, 6, 1, 5, 15, 11, 9, 14, 3, 12, 13, 0]]

def lget (l : List Nat) (i : Nat) : Nat := l.getD i 0

def mSel (m s : List Nat) (k : Nat) : Nat := lget m (lget s k)

/-- One BLAKE2b round: the eight G mixing-function applications on the
sixteen-word work vector, written register-style. -/
def blakeRound (m : List Nat) (v : List Nat) (i : Nat) : List Nat :=
  match v with
  | [a0, a1, a2, a3, a4, a5, a6, a7, a8, a9, a10, a11, a12, a13, a14, a15] =>
    let s := BLAKE2B_SIGMA.getD (i % 10) []
    let a0 := add64 (add64 a0 a4) (mSel m s 0)
    let a12 := rotr64 (a12 ^^^ a0) 32
    let a8 := add64 a8 a12
    let a4 := rotr64 (a4 ^^^ a8) 24
    let a0 := add64 (add64 a0 a4) (mSel m s 1)
    let a12 := rotr64 (a12 ^^^ a0) 16
    let a8 := add64 a8 a12
    let a4 := rotr64 (a4 ^^^ a8) 63
    let a1 := add64 (add64 a1 a5) (mSel m s 2)
    let a13 := rotr64 (a13 ^^^ a1) 32
    let a9 := add64 a9 a13
    let a5 := rotr64 (a5 ^^^ a9) 24
    let a1 := add64 (add64 a1 a5) (mSel m s 3)
    let a13 := rotr64 (a13 ^^^ a1) 16
    let a9 := add64 a9 a13
    let a5 := rotr64 (a5 ^^^ a9) 63
    let a2 := add64 (add64 a2 a6) (mSel m s 4)
    let a14 := rotr64 (a14 ^^^ a2) 32
    let a10 := add64 a10 a14
    let a6 := rotr64 (a6 ^^^ a10) 24
    let a2 := add64 (add64 a2 a6) (mSel m s 5)
    let a14 := rotr64 (a14 ^^^ a2) 16
    let a10 := add64 a10 a14
    let a6 := rotr64 (a6 ^^^ a10) 63
    let a3 := add64 (add64 a3 a7) (mSel m s 6)
    let a15 := rotr64 (a15 ^^^ a3) 32
    let a11 := add64 a11 a15
    let a7 := rotr64 (a7 ^^^ a11) 24
    let a3 := add64 (add64 a3 a7) (mSel m s 7)
    let a15 := rotr64 (a15 ^^^ a3) 16
    let a11 := add64 a11 a15
    let a7 := rotr64 (a7 ^^^ a11) 63
    let a0 := add64 (add64 a0 a5) (mSel m s 8)
    let a15 := rotr64 (a15 ^^^ a0) 32
    let a10 := add64 a10 a15
    let a5 := rotr64 (a5 ^^^ a10) 24
    let a0 := add64 (add64 a0 a5) (mSel m s 9)
    let a15 := rotr64 (a15 ^^^ a0) 16
    let a10 := add64 a10 a15
    let a5 := rotr64 (a5 ^^^ a10) 63
    let a1 := add64 (add64 a1 a6) (mSel m s 10)
    let a12 := rotr64 (a12 ^^^ a1) 32
    let a11 := add64 a11 a12
    let a6 := rotr64 (a6 ^^^ a11) 24
    let a1 := add64 (add64 a1 a6) (mSel m s 11)
    let a12 := rotr64 (a12 ^^^ a1) 16
    let a11 := add64 a11 a12
    let a6 := rotr64 (a6 ^^^ a11) 63
    let a2 := add64 (add64 a2 a7) (mSel m s 12)
    let a13 := rotr64 (a13 ^^^ a2) 32
    let a8 := add64 a8 a13
    let a7 := rotr64 (a7 ^^^ a8) 24
    let a2 := add64 (add64 a2 a7) (mSel m s 13)
    let a13 := rotr64 (a13 ^^^ a2) 16
    let a8 := add64 a8 a13
    let a7 := rotr64 (a7 ^^^ a8) 63
    let a3 := add64 (add64 a3 a4) (mSel m s 14)
    let a14 := rotr64 (a14 ^^^ a3) 32
    let a9 := add64 a9 a14
    let a4 := rotr64 (a4 ^^^ a9) 24
    let a3 := add64 (add64 a3 a4) (mSel m s 15)
    let a14 := rotr64 (a14 ^^^ a3) 16
    let a9 := add64 a9 a14
    let a4 := rotr64 (a4 ^^^ a9) 63
    [a0, a1, a2, a3, a4, a5, a6, a7, a8, a9, a10, a11, a12, a13, a14, a15]
  | other => other

/-- BLAKE2b compression function. -/
def blakeCompress (h : List Nat) (m : List Nat) (t : Nat) (final : Bool) :
    List Nat :=
  let v := h ++ BLAKE2B_IV
  let v := v.set 12 (lget v 12 ^^^ (t % U64_LIMIT))
  let v := v.set 13 (lget v 13 ^^^ (t / U64_LIMIT))
  let v := if final then v.set 14 (lget v 14 ^^^ 0xffffffffffffffff) else v
  let v := (List.range 12).foldl (blakeRound m) v
  (List.range 8).map (fun i => lget h i ^^^ lget v i ^^^ lget v (i + 8))

/-- Little-endian 64-bit word read at a byte offset. -/
def leWord (b : List Nat) (o : Nat) : Nat :=
  b.getD o 0 + b.getD (o + 1) 0 * 0x100 + b.getD (o + 2) 0 * 0x10000 +
  b.getD (o + 3) 0 * 0x1000000 + b.getD (o + 4) 0 * 0x100000000 +
  b.getD (o + 5) 0 * 0x10000000000 + b.getD (o + 6) 0 * 0x1000000000000 +
  b.getD (o + 7) 0 * 0x100000000000000

/-- The sixteen message words of a 128-byte block. -/
def blockWords (block : List Nat) : List Nat :=
  (List.range 16).map (fun i => leWord block (8 * i))

/-- Zero-pad a final block to 128 bytes. -/
def padBlock (m : List Nat) : List Nat :=
  m ++ List.replicate (128 - m.length) 0

/-- Process the message blocks (fuelled; the fuel bounds the number of
128-byte steps). -/
def blake2bBlocks : Nat → List Nat → List Nat → Nat → List Nat
  | 0, h, _, _ => h
  | fuel + 1, h, msg, processed =>
    if msg.length ≤ 128 then
      blakeCompress h (blockWords (padBlock msg)) (processed + msg.length) true
    else
      blake2bBlocks fuel
        (blakeCompress h (blockWords (msg.take 128)) (processed + 128) false)
        (msg.drop 128) (processed + 128)

/-- Little-endian bytes of a 64-bit word. -/
def wordLEBytes (w : Nat) : List Nat :=
  [w % 256, w / 0x100 % 256, w / 0x10000 % 256, w / 0x1000000 % 256,
   w / 0x100000000 % 256, w / 0x10000000000 % 256,
   w / 0x1000000000000 % 256, w / 0x100000000000000 % 256]

/-- BLAKE2b with a 256-bit digest (the Params::new().hash_length(32)
configuration of the validator). -/
def blake2b_256 (msg : List Nat) : List Nat :=
  let h0 := BLAKE2B_IV.set 0 (lget BLAKE2B_IV 0 ^^^ 0x01010020)
  let h := blake2bBlocks (msg.length + 1) h0 msg 0
  ((h.map wordLEBytes).flatten).take 32

/-! ## Metadata validator hash check
(src/backend/src/services/metadata_validation.rs) -/

/-- models::action::CheckStatus. -/
inductive CheckStatus where
  | Pass
  | Fail
  | Warning
  | Pending
  | Unknown
deriving DecidableEq

/-- models::action::CheckOutcome. -/
structure CheckOutcome where
  status : CheckStatus
  message : Option Str
deriving DecidableEq

def CheckOutcome.pass (message : Str) : CheckOutcome :=
  { status := .Pass, message := some message }

def CheckOutcome.fail (message : Str) : CheckOutcome :=
  { status := .Fail, message := some message }

def CheckOutcome.warning (message : Str) : CheckOutcome :=
  { status := .Warning, message := some message }

def CheckOutcome.pending (message : Str) : CheckOutcome :=
  { status := .Pending, message := some message }

def CheckOutcome.unknown (message : Str) : CheckOutcome :=
  { status := .Unknown, message := some message }

/-- Rust char::is_ascii_hexdigit. -/
def is_ascii_hexdigit (c : Char) : Bool :=
  ('0' ≤ c ∧ c ≤ '9') ∨ ('a' ≤ c ∧ c ≤ 'f') ∨ ('A' ≤ c ∧ c ≤ 'F')

/-- Rust str::trim_start_matches("0x") (strips every leading repetition). -/
def trimStart0x : Str → Str
  | '0' :: 'x' :: rest => trimStart0x rest
  | s => s

/-- Rust str::trim_start_matches("ipfs://"). -/
def trimIpfs : Str → Str
  | 'i' :: 'p' :: 'f' :: 's' :: ':' :: '/' :: '/' :: rest => trimIpfs rest
  | s => s

/-- ASCII whitespace predicate modelling Rust str::trim on the ASCII data
the validator handles. -/
def isWs (c : Char) : Bool := c = ' ' ∨ c = '\t' ∨ c = '\n' ∨ c = '\r'

/-- Rust str::trim. -/
def strTrim (s : Str) : Str :=
  ((s.dropWhile isWs).reverse.dropWhile isWs).reverse

def DEFAULT_MAX_BYTES : Nat := 5 * 1024 * 1024

def DEFAULT_IPFS_GATEWAY : Str := str "https://ipfs.io/ipfs/"

/-- MetadataValidator::resolve_url. -/
def resolve_url (url : Str) : Except Unit Str :=
  if starts_with url (str "ipfs://") then
    let content_id := trimIpfs url
    if content_id.isEmpty then .error ()
    else .ok (DEFAULT_IPFS_GATEWAY ++ content_id)
  else if starts_with url (str "http://") || starts_with url (str "https://")
  then .ok url
  else .error ()

/-- Outcome of the HTTP body fetch, passed in as an oracle. -/
inductive HttpFetch where
  | success (bytes : List Nat)
  | httpError
  | networkError

/-- services::metadata_validation::FetchedMetadata. -/
structure FetchedMetadata where
  url : Str
  bytes_read : Option Nat
  computed_hash : Str
  expected_hash : Str
  hash_matches : Bool
  document : Option Json

/-- MetadataValidator::fetch_and_hash.  The HTTP request and the JSON body
parse are oracle arguments. -/
def fetch_and_hash (fetch : Str → HttpFetch)
    (parseJson : List Nat → Option Json)
    (meta_url expected_hash_hex : Str) : Except Unit FetchedMetadata :=
  let expected_clean := trimStart0x expected_hash_hex
  if !(expected_clean.length == 64 && expected_clean.all is_ascii_hexdigit)
  then .error ()
  else
    match resolve_url meta_url with
    | .error _ => .error ()
    | .ok resolved_url =>
      match fetch resolved_url with
      | .httpError => .error ()
      | .networkError => .error ()
      | .success bytes =>
        if bytes.length > DEFAULT_MAX_BYTES then .error ()
        else
          let computed_hex := hexEncode (blake2b_256 bytes)
          let normalized_expected := to_ascii_lowercase expected_clean
          .ok { url := resolved_url
                bytes_read := some bytes.length
                computed_hash := computed_hex
                expected_hash := normalized_expected
                hash_matches := computed_hex == normalized_expected
                document := parseJson bytes }

/-- MetadataValidator::evaluate_hash. -/
def evaluate_hash (fetch : Str → HttpFetch)
    (parseJson : List Nat → Option Json)
    (meta_url meta_hash : Option Str) :
    CheckOutcome × Option FetchedMetadata :=
  match meta_url with
  | none => (CheckOutcome.unknown (str "No metadata URL available for hashing"),
      none)
  | some url =>
    match meta_hash with
    | none =>
      (CheckOutcome.unknown
        (str "On-chain metadata hash missing; cannot validate"), none)
    | some hash_hex =>
      match fetch_and_hash fetch parseJson (strTrim url) (strTrim hash_hex) with
      | .ok fetched =>
        if fetched.hash_matches then
          (CheckOutcome.pass (str "Metadata hash matches on-chain anchor"),
            some fetched)
        else
          (CheckOutcome.fail
            (str "Hash mismatch between fetched metadata and on-chain anchor"),
            some fetched)
      | .error _ =>
        (CheckOutcome.fail (str "Failed to validate metadata hash"), none)


/-- cache::keys::CacheKey. -/
inductive CacheKey where
  | DRepsPage (page count : Nat) (filters : Option Str)
  | DRep (id : Str)
  | DRepDelegators (id : Str)
  | DRepVotingHistory (id : Str)
  | DRepMetadata (id : Str)
  | DRepStats
  | ActionsPage (page count : Nat)
  | Action (id : Str)
  | ActionVotes (id : Str)
  | ActionMetadataValidation (action_id : Str) (meta_hash : Option Str)
      (verifier_enabled : Bool) (version : Nat)
  | StakeDelegation (stake_address : Str)
  | EpochStartTime (epoch : Nat)
deriving DecidableEq

/-- cache::keys::CacheKey::to_string.  Appends are grouped to the right;
the rendered character sequence is exactly the Rust format! output. -/
def CacheKey.to_string : CacheKey → Str
  | .DRepsPage page count filters =>
    match filters with
    | some f =>
      str "dreps_page:page=" ++ (decNat page ++ (str ":count=" ++
        (decNat count ++ (str ":filters=" ++ f))))
    | none =>
      str "dreps_page:page=" ++ (decNat page ++ (str ":count=" ++ decNat count))
  | .DRep id => str "drep:" ++ id
  | .DRepDelegators id => str "drep_delegators:" ++ id
  | .DRepVotingHistory id => str "drep_votes:" ++ id
  | .DRepMetadata id => str "drep_metadata:" ++ id
  | .DRepStats => str "dreps_stats"
  | .ActionsPage page count =>
    str "actions_page:page=" ++ (decNat page ++ (str ":count=" ++ decNat count))
  | .Action id => str "action:" ++ id
  | .ActionVotes id => str "action_votes:" ++ id
  | .ActionMetadataValidation action_id meta_hash verifier_enabled version =>
    match meta_hash with
    | some hash =>
      str "action_metadata:" ++ (action_id ++ (str ":hash=" ++
        (to_ascii_lowercase hash ++ (str ":verifier=" ++
          (boolStr verifier_enabled ++ (str ":v=" ++ decNat version))))))
    | none =>
      str "action_metadata:" ++ (action_id ++ (str ":nohash:verifier=" ++
        (boolStr verifier_enabled ++ (str ":v=" ++ decNat version))))
  | .StakeDelegation stake_address => str "stake_delegation:" ++ stake_address
  | .EpochStartTime epoch => str "epoch_start_time:" ++ decNat epoch

/-- Side condition under which the serialization is injective: the
ActionMetadataValidation parameters contain no ':' separator character and
the hash is already lowercase.  All other variants are unrestricted. -/
def CacheKeySafe : CacheKey → Prop
  | .ActionMetadataValidation action_id meta_hash _ _ =>
    (':' ∉ action_id) ∧
    (match meta_hash with
     | some h => (':' ∉ h) ∧ to_ascii_lowercase h = h
     | none => True)
  | _ => True

/-- Variant discriminant recovered from the serialized string (the segment
before the first ':' determines the variant). -/
def strTag : Str → Nat
  | 'd' :: 'r' :: 'e' :: 'p' :: 's' :: '_' :: 'p' :: _ => 0
  | 'd' :: 'r' :: 'e' :: 'p' :: 's' :: '_' :: 's' :: _ => 5
  | 'd' :: 'r' :: 'e' :: 'p' :: ':' :: _ => 1
  | 'd' :: 'r' :: 'e' :: 'p' :: '_' :: 'd' :: _ => 2
  | 'd' :: 'r' :: 'e' :: 'p' :: '_' :: 'v' :: _ => 3
  | 'd' :: 'r' :: 'e' :: 'p' :: '_' :: 'm' :: _ => 4
  | 'a' :: 'c' :: 't' :: 'i' :: 'o' :: 'n' :: 's' :: _ => 6
  | 'a' :: 'c' :: 't' :: 'i' :: 'o' :: 'n' :: ':' :: _ => 7
  | 'a' :: 'c' :: 't' :: 'i' :: 'o' :: 'n' :: '_' :: 'v' :: _ => 8
  | 'a' :: 'c' :: 't' :: 'i' :: 'o' :: 'n' :: '_' :: 'm' :: _ => 9
  | 's' :: _ => 10
  | 'e' :: _ => 11
  | _ => 99

/-- Variant number of a cache key. -/
def keyNum : CacheKey → Nat
  | .DRepsPage .. => 0
  | .DRep _ => 1
  | .DRepDelegators _ => 2
  | .DRepVotingHistory _ => 3
  | .DRepMetadata _ => 4
  | .DRepStats => 5
  | .ActionsPage .. => 6
  | .Action _ => 7
  | .ActionVotes _ => 8
  | .ActionMetadataValidation .. => 9
  | .StakeDelegation _ => 10
  | .EpochStartTime _ => 11


/-- models::participation::DRepParticipation, fields as constructed by
ensure_drep_participant in cached_router.rs. -/
structure DRepParticipation where
  drep_id : Str
  given_name : Option Str
  view : Option Str
  hex : Option Str
  has_profile : Option Bool
  has_voted : Bool
  vote : Option Str
  voting_power : Option Str
  tx_hash : Option Str
  cert_index : Option Nat
  block_time : Option Nat
deriving DecidableEq

/-- models::participation::StakePoolParticipation, fields as constructed by
ensure_pool_participant in cached_router.rs. -/
structure StakePoolParticipation where
  pool_id : Str
  ticker : Option Str
  name : Option Str
  description : Option Str
  homepage : Option Str
  has_voted : Bool
  vote : Option Str
  voting_power : Option Str
  tx_hash : Option Str
  cert_index : Option Nat
  block_time : Option Nat
deriving DecidableEq

/-- models::participation::CommitteeParticipation, fields as constructed by
ensure_committee_participant in cached_router.rs. -/
structure CommitteeParticipation where
  identifier : Str
  role : Option Str
  hot_key : Option Str
  cold_key : Option Str
  expiry_epoch : Option Nat
  has_voted : Bool
  vote : Option Str
  voting_power : Option Str
  tx_hash : Option Str
  cert_index : Option Nat
  block_time : Option Nat
deriving DecidableEq

/-- A vote record as consumed by the overlay loop in
get_action_voter_participation (fields read on lines 643-695). -/
structure VoteRecord where
  voter_type : Str
  voter_identifier : Str
  vote : Option Str
  voting_power : Option Str
  tx_hash : Option Str
  cert_index : Option Nat
  block_time : Option Nat
deriving DecidableEq

/-- The local mutable state of get_action_voter_participation: the three
rosters and their lowercase-identifier lookup maps (HashMap<String, usize>
modelled as an association list where insert prepends, so the most recent
binding wins as in HashMap). -/
structure ParticipationState where
  drep_participants : List DRepParticipation
  drep_lookup : List (Str × Nat)
  pool_participants : List StakePoolParticipation
  pool_lookup : List (Str × Nat)
  committee_participants : List CommitteeParticipation
  committee_lookup : List (Str × Nat)
deriving DecidableEq

/-- cached_router.rs ensure_drep_participant. -/
def ensure_drep_participant (identifier : Str)
    (participants : List DRepParticipation) (lookup : List (Str × Nat)) :
    Nat × List DRepParticipation × List (Str × Nat) :=
  let key := to_ascii_lowercase identifier
  match List.lookup key lookup with
  | some index => (index, participants, lookup)
  | none =>
    let index := participants.length
    let entry : DRepParticipation :=
      { drep_id := identifier, given_name := none, view := none, hex := none,
        has_profile := none, has_voted := false, vote := none,
        voting_power := none, tx_hash := none, cert_index := none,
        block_time := none }
    (index, participants ++ [entry], (key, index) :: lookup)

/-- cached_router.rs ensure_pool_participant. -/
def ensure_pool_participant (identifier : Str)
    (participants : List StakePoolParticipation) (lookup : List (Str × Nat)) :
    Nat × List StakePoolParticipation × List (Str × Nat) :=
  let key := to_ascii_lowercase identifier
  match List.lookup key lookup with
  | some index => (index, participants, lookup)
  | none =>
    let index := participants.length
    let entry : StakePoolParticipation :=
      { pool_id := identifier, ticker := none, name := none,
        description := none, homepage := none, has_voted := false,
        vote := none, voting_power := none, tx_hash := none,
        cert_index := none, block_time := none }
    (index, participants ++ [entry], (key, index) :: lookup)

/-- cached_router.rs ensure_committee_participant. -/
def ensure_committee_participant (identifier : Str)
    (participants : List CommitteeParticipation) (lookup : List (Str × Nat)) :
    Nat × List CommitteeParticipation × List (Str × Nat) :=
  let key := to_ascii_lowercase identifier
  match List.lookup key lookup with
  | some index => (index, participants, lookup)
  | none =>
    let index := participants.length
    let entry : CommitteeParticipation :=
      { identifier := identifier, role := none, hot_key := none,
        cold_key := none, expiry_epoch := none, has_voted := false,
        vote := none, voting_power := none, tx_hash := none,
        cert_index := none, block_time := none }
    (index, participants ++ [entry], (key, index) :: lookup)

/-- The six mutations applied to a matched drep participant. -/
def applyVoteDRep (r : VoteRecord) (p : DRepParticipation) : DRepParticipation :=
  { p with has_voted := true, vote := r.vote,
           voting_power := r.voting_power, tx_hash := r.tx_hash,
           cert_index := r.cert_index, block_time := r.block_time }

/-- The six mutations applied to a matched stake-pool participant. -/
def applyVotePool (r : VoteRecord) (p : StakePoolParticipation) :
    StakePoolParticipation :=
  { p with has_voted := true, vote := r.vote,
           voting_power := r.voting_power, tx_hash := r.tx_hash,
           cert_index := r.cert_index, block_time := r.block_time }

/-- The six mutations applied to a matched committee participant. -/
def applyVoteCommittee (r : VoteRecord) (p : CommitteeParticipation) :
    CommitteeParticipation :=
  { p with has_voted := true, vote := r.vote,
           voting_power := r.voting_power, tx_hash := r.tx_hash,
           cert_index := r.cert_index, block_time := r.block_time }

/-- One iteration of the overlay loop (cached_router.rs lines 643-695):
match on voter_type, ensure a roster entry, then mark it voted; any other
voter_type falls to the empty arm and the record is ignored. -/
def overlayRecord (s : ParticipationState) (r : VoteRecord) :
    ParticipationState :=
  if r.voter_type = str "drep" then
    let t := ensure_drep_participant r.voter_identifier
      s.drep_participants s.drep_lookup
    let ps := match t.2.1.get? t.1 with
      | some p => t.2.1.set t.1 (applyVoteDRep r p)
      | none => t.2.1
    { s with drep_participants := ps, drep_lookup := t.2.2 }
  else if r.voter_type = str "spo" ∨ r.voter_type = str "stake_pool"
      ∨ r.voter_type = str "pool" then
    let t := ensure_pool_participant r.voter_identifier
      s.pool_participants s.pool_lookup
    let ps := match t.2.1.get? t.1 with
      | some p => t.2.1.set t.1 (applyVotePool r p)
      | none => t.2.1
    { s with pool_participants := ps, pool_lookup := t.2.2 }
  else if r.voter_type = str "cc" ∨ r.voter_type = str "committee"
      ∨ r.voter_type = str "constitutional" then
    let t := ensure_committee_participant r.voter_identifier
      s.committee_participants s.committee_lookup
    let ps := match t.2.1.get? t.1 with
      | some p => t.2.1.set t.1 (applyVoteCommittee r p)
      | none => t.2.1
    { s with committee_participants := ps, committee_lookup := t.2.2 }
  else s

/-- The whole overlay loop over the fetched vote records. -/
def overlayVotes (s : ParticipationState) (records : List VoteRecord) :
    ParticipationState :=
  records.foldl overlayRecord s

/-- Modelled from the spec: per-class summary "count voted / total /
percentage" (models::participation::calculate_summary; the file
models/participation.rs is absent from the source tree). -/
structure ParticipationSummary where
  voted : Nat
  total : Nat
  percentage : ℚ
deriving DecidableEq

/-- Modelled from the spec: the summary of a roster with the given voted
count; percentage is voted out of total, zero for an empty roster. -/
def calculate_summary (total voted : Nat) : ParticipationSummary :=
  { voted := voted, total := total, percentage :=
      if total = 0 then 0 else (voted : ℚ) / (total : ℚ) * 100 }

/-- The three per-class summaries computed at the end of
get_action_voter_participation (lines 727-750): voted counts by filtering
has_voted, totals are roster sizes. -/
def participation_summaries (s : ParticipationState) :
    ParticipationSummary × ParticipationSummary × ParticipationSummary :=
  (calculate_summary s.drep_participants.length
     (s.drep_participants.filter (fun p => p.has_voted)).length,
   calculate_summary s.pool_participants.length
     (s.pool_participants.filter (fun p => p.has_voted)).length,
   calculate_summary s.committee_participants.length
     (s.committee_participants.filter (fun p => p.has_voted)).length)


-- ===== THEOREMS =====

/-! ## Helper lemmas -/

/-- A disabled cache manager is inert under every single operation. -/
theorem runCacheOp_disabled (s : CacheManagerState) (h : s.enabled = false)
    (op : CacheOp) : runCacheOp s op = s := by
  cases op <;>
    simp [runCacheOp, CacheManager_get, CacheManager_set,
      CacheManager_invalidate, CacheManager_clear, h]

/-- A disabled cache manager is inert under every operation sequence. -/
theorem runCacheOps_disabled (s : CacheManagerState) (h : s.enabled = false)
    (ops : List CacheOp) : runCacheOps s ops = s := by
  induction ops with
  | nil => rfl
  | cons op rest ih =>
    show runCacheOps (runCacheOp s op) rest = s
    rw [runCacheOp_disabled s h op, ih]

/-- Invariant carried through the best-anchor fold of
infer_epoch_start_time: the accumulator is none exactly while no seen
anchor had a representable candidate, and otherwise records a seen anchor
of minimal epoch distance among those with representable candidates. -/
def InferInv (epoch : Nat) (seen : List (Nat × Nat))
    (best : Option (Nat × Nat)) : Prop :=
  match best with
  | none => ∀ a ∈ seen, epochCandidate epoch a = none
  | some (d, c) =>
    (∃ b ∈ seen, epochCandidate epoch b = some c ∧ epochDist epoch b = d) ∧
    ∀ a ∈ seen, ∀ c2, epochCandidate epoch a = some c2 → d ≤ epochDist epoch a

theorem inferStep_inv (epoch : Nat) (seen : List (Nat × Nat))
    (best : Option (Nat × Nat)) (a : Nat × Nat)
    (h : InferInv epoch seen best) :
    InferInv epoch (seen ++ [a]) (inferStep epoch best a) := by
  unfold inferStep
  cases hc : epochCandidate epoch a with
  | none =>
    cases best with
    | none =>
      intro x hx
      rcases List.mem_append.1 hx with hx | hx
      · exact h x hx
      · simp at hx; subst hx; exact hc
    | some p =>
      obtain ⟨d, c⟩ := p
      obtain ⟨⟨b, hb, hbc, hbd⟩, hmin⟩ := h
      refine ⟨⟨b, List.mem_append_left _ hb, hbc, hbd⟩, ?_⟩
      intro x hx c2 hc2
      rcases List.mem_append.1 hx with hx | hx
      · exact hmin x hx c2 hc2
      · simp at hx; subst hx; rw [hc] at hc2; cases hc2
  | some cand =>
    cases best with
    | none =>
      refine ⟨⟨a, List.mem_append_right _ (by simp), hc, rfl⟩, ?_⟩
      intro x hx c2 hc2
      rcases List.mem_append.1 hx with hx | hx
      · rw [h x hx] at hc2; cases hc2
      · simp at hx; subst hx; exact le_refl _
    | some p =>
      obtain ⟨d, c⟩ := p
      obtain ⟨⟨b, hb, hbc, hbd⟩, hmin⟩ := h
      by_cases hle : d ≤ epochDist epoch a
      · simp only [hle, if_true]
        refine ⟨⟨b, List.mem_append_left _ hb, hbc, hbd⟩, ?_⟩
        intro x hx c2 hc2
        rcases List.mem_append.1 hx with hx | hx
        · exact hmin x hx c2 hc2
        · simp at hx; subst hx; exact hle
      · simp only [hle, if_false]
        refine ⟨⟨a, List.mem_append_right _ (by simp), hc, rfl⟩, ?_⟩
        intro x hx c2 hc2
        rcases List.mem_append.1 hx with hx | hx
        · exact le_of_lt (lt_of_lt_of_le (lt_of_not_le hle) (hmin x hx c2 hc2))
        · simp at hx; subst hx; exact le_refl _

theorem inferFold_inv (epoch : Nat) (l : List (Nat × Nat)) :
    ∀ (seen : List (Nat × Nat)) (best : Option (Nat × Nat)),
    InferInv epoch seen best →
    InferInv epoch (seen ++ l) (l.foldl (inferStep epoch) best) := by
  induction l with
  | nil => intro seen best h; simpa using h
  | cons a rest ih =>
    intro seen best h
    have h2 := inferStep_inv epoch seen best a h
    have h3 := ih (seen ++ [a]) (inferStep epoch best a) h2
    simpa using h3

/-! ## Claim C1: epoch-time inference -/

/-- Claim C1, as stated, is false: with the single anchor (epoch 10, start
1000), inferring epoch 8 does not yield 136000 — the checked u64
subtraction 1000 - 864000 underflows, so no candidate exists. -/
theorem C1_counterexample :
    ¬ infer_epoch_start_time 8 [(10, 1000)] = some 136000 := by decide

/-- Claim C1 (amended): with one known anchor (epoch 10, start 1000) and
epoch duration 432000, epoch 12 resolves to 1000 + 2 * 432000 = 865000,
while epoch 8 yields no inferred time because the u64 subtraction
1000 - 2 * 432000 underflows; in general every representable candidate is
the anchor start offset by epoch_delta * 432000, and the inferred time of
an unknown epoch is the candidate of an anchor of smallest epoch distance
among the anchors whose offset arithmetic stays in u64 range. -/
theorem C1_epoch_time_inference :
    infer_epoch_start_time 12 [(10, 1000)] = some 865000 ∧
    infer_epoch_start_time 8 [(10, 1000)] = none ∧
    (∀ (epoch : Nat) (a : Nat × Nat) (c : Nat),
      epochCandidate epoch a = some c →
      (a.1 ≤ epoch ∧ c = a.2 + (epoch - a.1) * CARDANO_EPOCH_DURATION_SECONDS) ∨
      (epoch < a.1 ∧ a.2 = c + (a.1 - epoch) * CARDANO_EPOCH_DURATION_SECONDS)) ∧
    (∀ (epoch : Nat) (known : List (Nat × Nat)),
      known.lookup epoch = none →
      ∀ a ∈ known, ∀ ca, epochCandidate epoch a = some ca →
      ∃ b ∈ known, ∃ cb, epochCandidate epoch b = some cb ∧
        infer_epoch_start_time epoch known = some cb ∧
        ∀ x ∈ known, ∀ cx, epochCandidate epoch x = some cx →
          epochDist epoch b ≤ epochDist epoch x) := by
  refine ⟨by decide, by decide, ?_, ?_⟩
  · intro epoch a c hc
    unfold epochCandidate at hc
    cases hm : checkedMul64 (epochDist epoch a) CARDANO_EPOCH_DURATION_SECONDS with
    | none => rw [hm] at hc; simp at hc
    | some off =>
      rw [hm] at hc
      have hc2 : (if a.1 ≤ epoch then checkedAdd64 a.2 off
          else checkedSub64 a.2 off) = some c := hc
      clear hc
      have hoff : off = epochDist epoch a * CARDANO_EPOCH_DURATION_SECONDS := by
        unfold checkedMul64 at hm
        by_cases hb : epochDist epoch a * CARDANO_EPOCH_DURATION_SECONDS < U64_LIMIT
        · rw [if_pos hb] at hm
          exact (Option.some.inj hm).symm
        · rw [if_neg hb] at hm
          simp at hm
      subst hoff
      by_cases hge : a.1 ≤ epoch
      · left
        refine ⟨hge, ?_⟩
        rw [if_pos hge] at hc2
        unfold checkedAdd64 at hc2
        have hd : epochDist epoch a = epoch - a.1 := by unfold epochDist; rw [if_pos hge]
        rw [hd] at hc2
        by_cases hb2 : a.2 + (epoch - a.1) * CARDANO_EPOCH_DURATION_SECONDS < U64_LIMIT
        · rw [if_pos hb2] at hc2
          have := Option.some.inj hc2
          omega
        · rw [if_neg hb2] at hc2
          simp at hc2
      · right
        refine ⟨lt_of_not_le hge, ?_⟩
        rw [if_neg hge] at hc2
        unfold checkedSub64 at hc2
        have hd : epochDist epoch a = a.1 - epoch := by unfold epochDist; rw [if_neg hge]
        rw [hd] at hc2
        by_cases hb2 : (a.1 - epoch) * CARDANO_EPOCH_DURATION_SECONDS ≤ a.2
        · rw [if_pos hb2] at hc2
          have := Option.some.inj hc2
          omega
        · rw [if_neg hb2] at hc2
          simp at hc2
  · intro epoch known hlook a ha ca hca
    have hinv := inferFold_inv epoch known [] none (by intro x hx; cases hx)
    simp only [List.nil_append] at hinv
    cases hfold : known.foldl (inferStep epoch) none with
    | none =>
      rw [hfold] at hinv
      rw [hinv a ha] at hca
      cases hca
    | some p =>
      obtain ⟨d, c⟩ := p
      rw [hfold] at hinv
      obtain ⟨⟨b, hb, hbc, hbd⟩, hmin⟩ := hinv
      refine ⟨b, hb, c, hbc, ?_, ?_⟩
      · unfold infer_epoch_start_time
        rw [hlook, hfold]
        rfl
      · intro x hx cx hcx
        rw [hbd]
        exact hmin x hx cx hcx

/-- Witness for C1: a concrete two-anchor inference in which the nearest
anchor (epoch 10) wins over the farther one (epoch 13). -/
theorem C1_witness :
    (List.lookup 11 [(10, 1000), (13, 5000000)] = none) ∧
    (∃ b ∈ [(10, 1000), (13, 5000000)], ∃ cb,
      epochCandidate 11 b = some cb ∧
      infer_epoch_start_time 11 [(10, 1000), (13, 5000000)] = some cb ∧
      ∀ x ∈ [(10, 1000), (13, 5000000)], ∀ cx,
        epochCandidate 11 x = some cx → epochDist 11 b ≤ epochDist 11 x) :=
  ⟨by decide, C1_epoch_time_inference.2.2.2 11 [(10, 1000), (13, 5000000)]
    (by decide) (10, 1000) (by decide) 433000 (by decide)⟩

/-! ## Claim C7: cache hit rate -/

/-- Claim C7, as stated, is false: after one hit and one miss the code
reports 50 (a percentage), not hits / (hits + misses) = 1 / 2. -/
theorem C7_counterexample :
    hit_rate 1 1 = 50 ∧ hit_rate 1 1 ≠ (1 : ℚ) / (1 + 1) := by
  norm_num [hit_rate]

/-- Claim C7 (amended): the derived hit rate equals
hits / (hits + misses) expressed as a percentage (multiplied by 100), and
is zero when no lookups have occurred. -/
theorem C7_hit_rate :
    ∀ hits misses : Nat,
      hit_rate hits misses = 100 * (hits : ℚ) / ((hits : ℚ) + (misses : ℚ)) ∧
      (hits + misses = 0 → hit_rate hits misses = 0) := by
  intro hits misses
  constructor
  · unfold hit_rate
    by_cases h : hits + misses = 0
    · have h1 : hits = 0 := by omega
      have h2 : misses = 0 := by omega
      subst h1; subst h2
      norm_num
    · have hq : ((hits : ℚ) + (misses : ℚ)) ≠ 0 := by
        have : ((hits + misses : Nat) : ℚ) ≠ 0 := Nat.cast_ne_zero.2 h
        push_cast at this
        exact this
      rw [if_neg h]
      push_cast
      field_simp
      ring
  · intro h
    unfold hit_rate
    rw [if_pos h]

/-- Witness for C7 at hits = 3, misses = 1 and at the no-lookup state. -/
theorem C7_witness :
    hit_rate 3 1 = 100 * (3 : ℚ) / ((3 : ℚ) + (1 : ℚ)) ∧ hit_rate 0 0 = 0 :=
  ⟨(C7_hit_rate 3 1).1, (C7_hit_rate 0 0).2 rfl⟩

/-! ## Claim C9: composed-source fallback ordering -/

/-- Claim C9 (confirmed): for the composed two-backend source, a non-empty
Ok answer from the preferred Koios backend is returned as-is without
consulting the Blockfrost fallback; an empty or failed Koios answer makes
the call return exactly the Blockfrost result; and the returned page is
always exactly one backend answer, never a blend. -/
theorem C9_fallback_ordering :
    ∀ koios blockfrost : Except Unit DRepsPage,
      (∀ page, koios = .ok page → page.dreps ≠ [] →
        ProviderRouter_get_dreps_page koios blockfrost = (.ok page, false)) ∧
      ((koios = .error () ∨ ∃ page, koios = .ok page ∧ page.dreps = []) →
        ProviderRouter_get_dreps_page koios blockfrost = (blockfrost, true)) ∧
      ((ProviderRouter_get_dreps_page koios blockfrost).1 = koios ∨
        (ProviderRouter_get_dreps_page koios blockfrost).1 = blockfrost) := by
  intro koios blockfrost
  refine ⟨?_, ?_, ?_⟩
  · intro page hk hne
    subst hk
    cases hp : page.dreps with
    | nil => exact absurd hp hne
    | cons a t => simp [ProviderRouter_get_dreps_page, hp]
  · intro h
    rcases h with h | ⟨page, hk, hemp⟩
    · subst h; rfl
    · subst hk
      simp [ProviderRouter_get_dreps_page, hemp]
  · cases koios with
    | error e => right; rfl
    | ok page =>
      cases hp : page.dreps with
      | nil => right; simp [ProviderRouter_get_dreps_page, hp]
      | cons a t => left; simp [ProviderRouter_get_dreps_page, hp]

/-- Witness for C9: Koios empty, Blockfrost with one delegate — the
composed call returns exactly the Blockfrost page; Koios non-empty — the
Koios page is returned without consulting the fallback. -/
theorem C9_witness :
    ProviderRouter_get_dreps_page (.ok ⟨[], false, none⟩)
        (.ok ⟨[emptyDRep (str "a")], false, none⟩)
      = (.ok ⟨[emptyDRep (str "a")], false, none⟩, true) ∧
    ProviderRouter_get_dreps_page (.ok ⟨[emptyDRep (str "b")], false, none⟩)
        (.ok ⟨[emptyDRep (str "a")], false, none⟩)
      = (.ok ⟨[emptyDRep (str "b")], false, none⟩, false) :=
  ⟨(C9_fallback_ordering _ _).2.1 (Or.inr ⟨_, rfl, rfl⟩),
   (C9_fallback_ordering _ _).1 _ rfl (by simp)⟩

/-! ## Claim C10: disabled cache is inert -/

/-- Claim C10 (confirmed): with enabled = false, get always returns None
and no operation mutates the state; consequently, under every operation
sequence from a freshly constructed disabled manager, the store stays
empty, the hit and miss counters stay 0 and the hit rate stays 0. -/
theorem C10_disabled_cache :
    (∀ s : CacheManagerState, s.enabled = false →
      (∀ key (deser : List Nat → Option Unit),
        CacheManager_get s key deser = (none, s)) ∧
      (∀ key ser, CacheManager_set s key ser = s) ∧
      (∀ key, CacheManager_invalidate s key = s) ∧
      CacheManager_clear s = s) ∧
    (∀ ops : List CacheOp,
      runCacheOps (CacheManager_new false) ops = CacheManager_new false ∧
      (runCacheOps (CacheManager_new false) ops).hits = 0 ∧
      (runCacheOps (CacheManager_new false) ops).misses = 0 ∧
      hit_rate (runCacheOps (CacheManager_new false) ops).hits
        (runCacheOps (CacheManager_new false) ops).misses = 0) := by
  constructor
  · intro s h
    refine ⟨?_, ?_, ?_, ?_⟩
    · intro key deser; simp [CacheManager_get, h]
    · intro key ser; simp [CacheManager_set, h]
    · intro key; simp [CacheManager_invalidate, h]
    · simp [CacheManager_clear, h]
  · intro ops
    have h := runCacheOps_disabled (CacheManager_new false) rfl ops
    rw [h]
    refine ⟨rfl, rfl, rfl, ?_⟩
    simp [CacheManager_new, hit_rate]

/-- Witness for C10: a concrete disabled manager and operation list. -/
theorem C10_witness :
    CacheManager_get (CacheManager_new false) (str "drep:x")
        (fun _ => some ()) = (none, CacheManager_new false) ∧
    runCacheOps (CacheManager_new false)
        [.set (str "k") (some [1, 2]), .get (str "k") (fun _ => some ()),
         .invalidate (str "k"), .clear]
      = CacheManager_new false :=
  ⟨(C10_disabled_cache.1 (CacheManager_new false) rfl).1 _ _,
   (C10_disabled_cache.2 _).1⟩

/-! ## Claim C3: enrichment merge -/

theorem applyIfAbsent_of_isSome (o i : Option α) (h : o.isSome = true) :
    applyIfAbsent o i = o := by
  cases o with
  | none => simp at h
  | some v => rfl

/-- Claim C3, as stated, is false: a present identity_references list is
changed by the merge — the enrichment entries are appended to it. -/
theorem C3_counterexample :
    (applyGovToolsEnrichment
        { emptyDRep (str "d") with
            identity_references := some [⟨none, some (str "a"), none⟩] }
        { emptyEnrichment with
            identity_references := [⟨none, some (str "b"), none⟩] }).identity_references
      ≠ some [⟨none, some (str "a"), none⟩] := by decide

/-- Claim C3 (amended): the enrichment merge applies every scalar profile
field only where the primary value is absent — a present scalar field
keeps exactly its value, an absent one receives the enrichment value — and
every field outside the merge is untouched; the identity_references and
link_references lists are the exception forced by the counterexample: a
present list is extended by appending the enrichment entries (its existing
entries are preserved as a prefix), and has_profile is either recomputed
to some true or left unchanged. -/
theorem C3_enrichment_merge :
    ∀ (d : DRep) (e : GovToolsEnrichment),
    (∀ xs, d.identity_references = some xs →
      (applyGovToolsEnrichment d e).identity_references
        = some (xs ++ e.identity_references)) ∧
    (∀ xs, d.link_references = some xs →
      (applyGovToolsEnrichment d e).link_references
        = some (xs ++ e.link_references)) ∧
    ((applyGovToolsEnrichment d e).has_profile = some true ∨
      (applyGovToolsEnrichment d e).has_profile = d.has_profile) ∧
    (d.given_name.isSome = true →
      (applyGovToolsEnrichment d e).given_name = d.given_name) ∧
    (d.objectives.isSome = true →
      (applyGovToolsEnrichment d e).objectives = d.objectives) ∧
    (d.motivations.isSome = true →
      (applyGovToolsEnrichment d e).motivations = d.motivations) ∧
    (d.qualifications.isSome = true →
      (applyGovToolsEnrichment d e).qualifications = d.qualifications) ∧
    (d.image_url.isSome = true →
      (applyGovToolsEnrichment d e).image_url = d.image_url) ∧
    (d.image_hash.isSome = true →
      (applyGovToolsEnrichment d e).image_hash = d.image_hash) ∧
    (d.latest_registration_date.isSome = true →
      (applyGovToolsEnrichment d e).latest_registration_date = d.latest_registration_date) ∧
    (d.latest_tx_hash.isSome = true →
      (applyGovToolsEnrichment d e).latest_tx_hash = d.latest_tx_hash) ∧
    (d.deposit.isSome = true →
      (applyGovToolsEnrichment d e).deposit = d.deposit) ∧
    (d.metadata_error.isSome = true →
      (applyGovToolsEnrichment d e).metadata_error = d.metadata_error) ∧
    (d.payment_address.isSome = true →
      (applyGovToolsEnrichment d e).payment_address = d.payment_address) ∧
    (d.is_script_based.isSome = true →
      (applyGovToolsEnrichment d e).is_script_based = d.is_script_based) ∧
    (d.votes_last_year.isSome = true →
      (applyGovToolsEnrichment d e).votes_last_year = d.votes_last_year) ∧
    (d.given_name = none →
      (applyGovToolsEnrichment d e).given_name = e.given_name) ∧
    (d.objectives = none →
      (applyGovToolsEnrichment d e).objectives = e.objectives) ∧
    (d.motivations = none →
      (applyGovToolsEnrichment d e).motivations = e.motivations) ∧
    (d.qualifications = none →
      (applyGovToolsEnrichment d e).qualifications = e.qualifications) ∧
    (d.image_url = none →
      (applyGovToolsEnrichment d e).image_url = e.image_url) ∧
    (d.image_hash = none →
      (applyGovToolsEnrichment d e).image_hash = e.image_hash) ∧
    (d.latest_registration_date = none →
      (applyGovToolsEnrichment d e).latest_registration_date = e.latest_registration_date) ∧
    (d.latest_tx_hash = none →
      (applyGovToolsEnrichment d e).latest_tx_hash = e.latest_tx_hash) ∧
    (d.deposit = none →
      (applyGovToolsEnrichment d e).deposit = e.deposit) ∧
    (d.metadata_error = none →
      (applyGovToolsEnrichment d e).metadata_error = e.metadata_error) ∧
    (d.payment_address = none →
      (applyGovToolsEnrichment d e).payment_address = e.payment_address) ∧
    (d.is_script_based = none →
      (applyGovToolsEnrichment d e).is_script_based = e.is_script_based) ∧
    (d.votes_last_year = none →
      (applyGovToolsEnrichment d e).votes_last_year = e.votes_last_year) ∧
    (applyGovToolsEnrichment d e).drep_id = d.drep_id ∧
    (applyGovToolsEnrichment d e).drep_hash = d.drep_hash ∧
    (applyGovToolsEnrichment d e).hex = d.hex ∧
    (applyGovToolsEnrichment d e).view = d.view ∧
    (applyGovToolsEnrichment d e).url = d.url ∧
    (applyGovToolsEnrichment d e).metadata = d.metadata ∧
    (applyGovToolsEnrichment d e).anchor = d.anchor ∧
    (applyGovToolsEnrichment d e).voting_power = d.voting_power ∧
    (applyGovToolsEnrichment d e).voting_power_active = d.voting_power_active ∧
    (applyGovToolsEnrichment d e).amount = d.amount ∧
    (applyGovToolsEnrichment d e).status = d.status ∧
    (applyGovToolsEnrichment d e).active = d.active ∧
    (applyGovToolsEnrichment d e).active_epoch = d.active_epoch ∧
    (applyGovToolsEnrichment d e).last_active_epoch = d.last_active_epoch ∧
    (applyGovToolsEnrichment d e).has_script = d.has_script ∧
    (applyGovToolsEnrichment d e).retired = d.retired ∧
    (applyGovToolsEnrichment d e).expired = d.expired ∧
    (applyGovToolsEnrichment d e).registration_tx_hash = d.registration_tx_hash ∧
    (applyGovToolsEnrichment d e).registration_epoch = d.registration_epoch ∧
    (applyGovToolsEnrichment d e).delegator_count = d.delegator_count ∧
    (applyGovToolsEnrichment d e).vote_count = d.vote_count ∧
    (applyGovToolsEnrichment d e).last_vote_epoch = d.last_vote_epoch := by
  intro d e
  refine ⟨?_, ?_, ?_, ?_, ?_, ?_, ?_, ?_, ?_, ?_, ?_, ?_, ?_, ?_, ?_, ?_, ?_, ?_, ?_, ?_, ?_, ?_, ?_, ?_, ?_, ?_, ?_, ?_, ?_, ?_, ?_, ?_, ?_, ?_, ?_, ?_, ?_, ?_, ?_, ?_, ?_, ?_, ?_, ?_, ?_, ?_, ?_, ?_, ?_, ?_, ?_⟩
  · intro xs hxs
    show (if !e.identity_references.isEmpty then
        match d.identity_references with
        | some existing => some (existing ++ e.identity_references)
        | none => some e.identity_references
      else d.identity_references) = some (xs ++ e.identity_references)
    rw [hxs]
    cases e.identity_references with
    | nil => simp
    | cons a t => simp
  · intro xs hxs
    show (if !e.link_references.isEmpty then
        match d.link_references with
        | some existing => some (existing ++ e.link_references)
        | none => some e.link_references
      else d.link_references) = some (xs ++ e.link_references)
    rw [hxs]
    cases e.link_references with
    | nil => simp
    | cons a t => simp
  · exact ite_eq_or_eq _ _ _
  · intro h
    exact applyIfAbsent_of_isSome _ _ h
  · intro h
    exact applyIfAbsent_of_isSome _ _ h
  · intro h
    exact applyIfAbsent_of_isSome _ _ h
  · intro h
    exact applyIfAbsent_of_isSome _ _ h
  · intro h
    exact applyIfAbsent_of_isSome _ _ h
  · intro h
    exact applyIfAbsent_of_isSome _ _ h
  · intro h
    exact applyIfAbsent_of_isSome _ _ h
  · intro h
    exact applyIfAbsent_of_isSome _ _ h
  · intro h
    exact applyIfAbsent_of_isSome _ _ h
  · intro h
    exact applyIfAbsent_of_isSome _ _ h
  · intro h
    exact applyIfAbsent_of_isSome _ _ h
  · intro h
    exact applyIfAbsent_of_isSome _ _ h
  · intro h
    exact applyIfAbsent_of_isSome _ _ h
  · intro h
    show applyIfAbsent d.given_name e.given_name = e.given_name
    rw [h]
    rfl
  · intro h
    show applyIfAbsent d.objectives e.objectives = e.objectives
    rw [h]
    rfl
  · intro h
    show applyIfAbsent d.motivations e.motivations = e.motivations
    rw [h]
    rfl
  · intro h
    show applyIfAbsent d.qualifications e.qualifications = e.qualifications
    rw [h]
    rfl
  · intro h
    show applyIfAbsent d.image_url e.image_url = e.image_url
    rw [h]
    rfl
  · intro h
    show applyIfAbsent d.image_hash e.image_hash = e.image_hash
    rw [h]
    rfl
  · intro h
    show applyIfAbsent d.latest_registration_date e.latest_registration_date = e.latest_registration_date
    rw [h]
    rfl
  · intro h
    show applyIfAbsent d.latest_tx_hash e.latest_tx_hash = e.latest_tx_hash
    rw [h]
    rfl
  · intro h
    show applyIfAbsent d.deposit e.deposit = e.deposit
    rw [h]
    rfl
  · intro h
    show applyIfAbsent d.metadata_error e.metadata_error = e.metadata_error
    rw [h]
    rfl
  · intro h
    show applyIfAbsent d.payment_address e.payment_address = e.payment_address
    rw [h]
    rfl
  · intro h
    show applyIfAbsent d.is_script_based e.is_script_based = e.is_script_based
    rw [h]
    rfl
  · intro h
    show applyIfAbsent d.votes_last_year e.votes_last_year = e.votes_last_year
    rw [h]
    rfl
  · rfl
  · rfl
  · rfl
  · rfl
  · rfl
  · rfl
  · rfl
  · rfl
  · rfl
  · rfl
  · rfl
  · rfl
  · rfl
  · rfl
  · rfl
  · rfl
  · rfl
  · rfl
  · rfl
  · rfl
  · rfl
  · rfl

/-- Witness for C3: a delegate with a present given_name and a present
one-entry identity list, merged with a conflicting enrichment profile. -/
theorem C3_witness :
    (applyGovToolsEnrichment
        { emptyDRep (str "d") with
            given_name := some (str "N"),
            identity_references := some [⟨none, some (str "a"), none⟩] }
        { emptyEnrichment with
            given_name := some (str "M"),
            identity_references := [⟨none, some (str "b"), none⟩] }).identity_references
      = some ([⟨none, some (str "a"), none⟩] ++ [⟨none, some (str "b"), none⟩]) ∧
    (applyGovToolsEnrichment
        { emptyDRep (str "d") with
            given_name := some (str "N"),
            identity_references := some [⟨none, some (str "a"), none⟩] }
        { emptyEnrichment with
            given_name := some (str "M"),
            identity_references := [⟨none, some (str "b"), none⟩] }).given_name
      = some (str "N") :=
  ⟨(C3_enrichment_merge _ _).1 _ rfl, (C3_enrichment_merge _ _).2.2.2.1 rfl⟩

/-! ## Claim C2: special system delegate identifiers -/

/-- Claim C2, as stated, is false: convert_to_cip105 on the special system
identifier drep_always_abstain is not a no-op — it attempts bech32
decoding (the string has no separator) and returns an error. -/
theorem C2_counterexample :
    convert_to_cip105 (str "drep_always_abstain")
        = .error CodecError.missingSeparator ∧
    ¬ convert_to_cip105 (str "drep_always_abstain")
        = .ok (str "drep_always_abstain") := by
  refine ⟨by decide, by decide⟩

/-- Claim C2 (amended): every special system delegate identifier is
accepted by is_valid_drep_id in both formats and normalize_to_cip129 is a
no-op on it (the only conversion that bypasses decoding), but
convert_to_cip105 and convert_to_cip129 attempt bech32 decoding and fail
on every special identifier with a missing-separator error. -/
theorem C2_special_ids :
    ∀ s ∈ SPECIAL_SYSTEM_DREPS,
      is_special_system_drep s = true ∧
      is_valid_drep_id s = true ∧
      normalize_to_cip129 s = .ok s ∧
      convert_to_cip105 s = .error CodecError.missingSeparator ∧
      convert_to_cip129 s = .error CodecError.missingSeparator := by
  intro s hs
  simp only [SPECIAL_SYSTEM_DREPS, List.mem_cons, List.mem_singleton] at hs
  rcases hs with rfl | rfl | rfl | rfl | h
  · exact ⟨by decide, by decide, by decide, by decide, by decide⟩
  · exact ⟨by decide, by decide, by decide, by decide, by decide⟩
  · exact ⟨by decide, by decide, by decide, by decide, by decide⟩
  · exact ⟨by decide, by decide, by decide, by decide, by decide⟩
  · cases h

/-- Witness for C2 at drep_always_abstain. -/
theorem C2_witness :
    is_special_system_drep (str "drep_always_abstain") = true ∧
    is_valid_drep_id (str "drep_always_abstain") = true ∧
    normalize_to_cip129 (str "drep_always_abstain")
      = .ok (str "drep_always_abstain") ∧
    convert_to_cip105 (str "drep_always_abstain")
      = .error CodecError.missingSeparator ∧
    convert_to_cip129 (str "drep_always_abstain")
      = .error CodecError.missingSeparator :=
  C2_special_ids (str "drep_always_abstain") (by decide)

/-! ## Bit-twiddling helper lemmas for the bech32 checksum -/

theorem shiftLeft_xor_distrib (a b k : Nat) :
    (a ^^^ b) <<< k = (a <<< k) ^^^ (b <<< k) := by
  apply Nat.eq_of_testBit_eq
  intro i
  simp only [Nat.testBit_shiftLeft, Nat.testBit_xor]
  cases h : decide (i ≥ k) <;> simp

theorem shiftRight_xor_distrib (a b k : Nat) :
    (a ^^^ b) >>> k = (a >>> k) ^^^ (b >>> k) := by
  apply Nat.eq_of_testBit_eq
  intro i
  simp [Nat.testBit_shiftRight, Nat.testBit_xor]

theorem testBit_of_high (v k i : Nat) (h : v < 2 ^ k) :
    v.testBit (k + i) = false :=
  Nat.testBit_lt_two_pow
    (lt_of_lt_of_le h (Nat.pow_le_pow_right (by norm_num) (Nat.le_add_right _ _)))

theorem shiftRight_xor_of_lt (s v : Nat) (h : v < 2 ^ 25) :
    (s ^^^ v) >>> 25 = s >>> 25 := by
  rw [shiftRight_xor_distrib]
  have hv : v >>> 25 = 0 := by
    rw [Nat.shiftRight_eq_div_pow]
    exact Nat.div_eq_of_lt h
  rw [hv, Nat.xor_zero]

theorem and_mask25_of_lt (v : Nat) (h : v < 2 ^ 25) : v &&& 0x1ffffff = v := by
  have h25 : (0x1ffffff : Nat) = 2 ^ 25 - 1 := by norm_num
  rw [h25, Nat.and_pow_two_sub_one_eq_mod, Nat.mod_eq_of_lt h]

theorem and31_of_lt (v : Nat) (h : v < 32) : v &&& 31 = v := by
  have h5 : (31 : Nat) = 2 ^ 5 - 1 := by norm_num
  rw [h5, Nat.and_pow_two_sub_one_eq_mod, Nat.mod_eq_of_lt h]

theorem horner_slice (x : Nat) : ((x >>> 5) <<< 5) ^^^ (x &&& 31) = x := by
  apply Nat.eq_of_testBit_eq
  intro i
  simp only [Nat.testBit_xor, Nat.testBit_shiftLeft, Nat.testBit_shiftRight,
    Nat.testBit_land]
  by_cases h : i < 5
  · have hd : decide (i ≥ 5) = false := by simp; omega
    have h31 : (31 : Nat).testBit i = true := by
      interval_cases i <;> decide
    simp [hd, h31]
  · have hd : decide (i ≥ 5) = true := by simp; omega
    have h31 : (31 : Nat).testBit i = false := by
      have : (31 : Nat) < 2 ^ 5 := by norm_num
      exact Nat.testBit_lt_two_pow
        (lt_of_lt_of_le this (Nat.pow_le_pow_right (by norm_num) (by omega)))
    have harith : 5 + (i - 5) = i := by omega
    simp [hd, h31, harith]

theorem xor30 (x y : Nat) (hx : x < 2 ^ 30) (hy : y < 2 ^ 30) :
    x ^^^ y < 2 ^ 30 := Nat.xor_lt_two_pow hx hy

theorem cond30 (c : Prop) [Decidable c] (x g : Nat) (hx : x < 2 ^ 30)
    (hg : g < 2 ^ 30) : (if c then x ^^^ g else x) < 2 ^ 30 := by
  split
  · exact xor30 x g hx hg
  · exact hx

theorem polymodStep_lt (s v : Nat) (hv : v < 2 ^ 30) :
    polymodStep s v < 2 ^ 30 := by
  unfold polymodStep
  have hbase : ((s &&& 0x1ffffff) <<< 5) ^^^ v < 2 ^ 30 := by
    apply xor30 _ _ _ hv
    have h1 : s &&& 0x1ffffff ≤ 0x1ffffff := Nat.and_le_right
    rw [Nat.shiftLeft_eq]
    norm_num
    omega
  apply cond30 _ _ _ (cond30 _ _ _ (cond30 _ _ _ (cond30 _ _ _
    (cond30 _ _ _ hbase (by norm_num)) (by norm_num)) (by norm_num))
    (by norm_num)) (by norm_num)

theorem polymodStep_xor (s v w : Nat) (hv : v < 2 ^ 25) :
    polymodStep (s ^^^ v) w = polymodStep s 0 ^^^ ((v <<< 5) ^^^ w) := by
  unfold polymodStep
  rw [shiftRight_xor_of_lt s v hv]
  have hand : (s ^^^ v) &&& 0x1ffffff = (s &&& 0x1ffffff) ^^^ v := by
    rw [Nat.and_xor_distrib_right, and_mask25_of_lt v hv]
  rw [hand, shiftLeft_xor_distrib]
  have xlc : ∀ a b c : Nat, a ^^^ (b ^^^ c) = b ^^^ (a ^^^ c) := fun a b c => by
    rw [← Nat.xor_assoc, Nat.xor_comm a b, Nat.xor_assoc]
  dsimp only
  split_ifs <;>
    simp [Nat.xor_assoc, Nat.xor_comm, xlc, Nat.xor_zero, Nat.zero_xor]

theorem shr_lt (x n k : Nat) (h : x < 2 ^ (n + k)) : x >>> n < 2 ^ k := by
  rw [Nat.shiftRight_eq_div_pow]
  apply (Nat.div_lt_iff_lt_mul (Nat.pos_pow_of_pos n (by norm_num))).2
  calc x < 2 ^ (n + k) := h
    _ = 2 ^ k * 2 ^ n := by rw [Nat.add_comm, pow_add]

/-- The checksum appended by bech32 encode makes the polymod fold land on
the Bech32 residue, from any starting register. -/
theorem polymodAux_checksum (S : Nat) :
    polymodAux S
      [((polymodAux S [0, 0, 0, 0, 0, 0] ^^^ 1) >>> 25) &&& 31,
       ((polymodAux S [0, 0, 0, 0, 0, 0] ^^^ 1) >>> 20) &&& 31,
       ((polymodAux S [0, 0, 0, 0, 0, 0] ^^^ 1) >>> 15) &&& 31,
       ((polymodAux S [0, 0, 0, 0, 0, 0] ^^^ 1) >>> 10) &&& 31,
       ((polymodAux S [0, 0, 0, 0, 0, 0] ^^^ 1) >>> 5) &&& 31,
       (polymodAux S [0, 0, 0, 0, 0, 0] ^^^ 1) &&& 31] = 1 := by
  set pm0 := polymodAux S [0, 0, 0, 0, 0, 0] with hpm0
  set pm := pm0 ^^^ 1 with hpm
  have hb0 : pm0 < 2 ^ 30 := by
    rw [hpm0]
    show polymodStep (polymodStep (polymodStep (polymodStep (polymodStep
      (polymodStep S 0) 0) 0) 0) 0) 0 < 2 ^ 30
    exact polymodStep_lt _ _ (by norm_num)
  have hbpm : pm < 2 ^ 30 := xor30 _ _ hb0 (by norm_num)
  have hc0 : (pm >>> 25) &&& 31 = pm >>> 25 :=
    and31_of_lt _ (shr_lt pm 25 5 hbpm)
  have h20 : (pm >>> 25) <<< 5 ^^^ ((pm >>> 20) &&& 31) = pm >>> 20 := by
    rw [show pm >>> 25 = (pm >>> 20) >>> 5 from (Nat.shiftRight_add pm 20 5).symm]
    exact horner_slice _
  have h15 : (pm >>> 20) <<< 5 ^^^ ((pm >>> 15) &&& 31) = pm >>> 15 := by
    rw [show pm >>> 20 = (pm >>> 15) >>> 5 from (Nat.shiftRight_add pm 15 5).symm]
    exact horner_slice _
  have h10 : (pm >>> 15) <<< 5 ^^^ ((pm >>> 10) &&& 31) = pm >>> 10 := by
    rw [show pm >>> 15 = (pm >>> 10) >>> 5 from (Nat.shiftRight_add pm 10 5).symm]
    exact horner_slice _
  have h5 : (pm >>> 10) <<< 5 ^^^ ((pm >>> 5) &&& 31) = pm >>> 5 := by
    rw [show pm >>> 10 = (pm >>> 5) >>> 5 from (Nat.shiftRight_add pm 5 5).symm]
    exact horner_slice _
  have h0 : (pm >>> 5) <<< 5 ^^^ (pm &&& 31) = pm := horner_slice pm
  show polymodStep (polymodStep (polymodStep (polymodStep (polymodStep
    (polymodStep S ((pm >>> 25) &&& 31)) ((pm >>> 20) &&& 31))
      ((pm >>> 15) &&& 31)) ((pm >>> 10) &&& 31)) ((pm >>> 5) &&& 31))
        (pm &&& 31) = 1
  have e1 : polymodStep S ((pm >>> 25) &&& 31)
      = polymodStep S 0 ^^^ pm >>> 25 := by
    conv_lhs => rw [show S = S ^^^ 0 from (Nat.xor_zero S).symm]
    rw [polymodStep_xor S 0 _ (by norm_num), hc0]
    simp
  rw [e1, polymodStep_xor _ _ _ (shr_lt pm 25 5 hbpm |>.trans (by norm_num)),
    h20, polymodStep_xor _ _ _ (shr_lt pm 20 10 hbpm |>.trans (by norm_num)),
    h15, polymodStep_xor _ _ _ (shr_lt pm 15 15 hbpm |>.trans (by norm_num)),
    h10, polymodStep_xor _ _ _ (shr_lt pm 10 20 hbpm |>.trans (by norm_num)),
    h5, polymodStep_xor _ _ _ (shr_lt pm 5 25 hbpm), h0]
  show pm0 ^^^ pm = 1
  rw [hpm, ← Nat.xor_assoc, Nat.xor_self, Nat.zero_xor]

/-- The full polymod of an hrp-expanded prefix, data and its created
checksum lands on the Bech32 residue. -/
theorem polymod_createChecksum (hrp : Str) (data : List Nat) :
    polymod (hrpExpand hrp ++ (data ++ createChecksum hrp data)) = 1 := by
  rw [show hrpExpand hrp ++ (data ++ createChecksum hrp data)
    = (hrpExpand hrp ++ data) ++ createChecksum hrp data from
      (List.append_assoc _ _ _).symm]
  unfold createChecksum BECH32_CONST
  have hz : polymod (hrpExpand hrp ++ data ++ [0, 0, 0, 0, 0, 0])
      = polymodAux (List.foldl polymodStep 1 (hrpExpand hrp ++ data))
          [0, 0, 0, 0, 0, 0] := by
    unfold polymod polymodAux
    rw [List.foldl_append]
  rw [hz]
  show polymod ((hrpExpand hrp ++ data) ++ _) = 1
  unfold polymod polymodAux
  rw [List.foldl_append]
  exact polymodAux_checksum (List.foldl polymodStep 1 (hrpExpand hrp ++ data))

/-! ## Bit-conversion round trip -/

theorem feToBits_fe5 (b0 b1 b2 b3 b4 : Bool) :
    feToBits (fe5 b0 b1 b2 b3 b4) = [b0, b1, b2, b3, b4] := by
  cases b0 <;> cases b1 <;> cases b2 <;> cases b3 <;> cases b4 <;> decide

theorem fe5_lt (b0 b1 b2 b3 b4 : Bool) : fe5 b0 b1 b2 b3 b4 < 32 := by
  cases b0 <;> cases b1 <;> cases b2 <;> cases b3 <;> cases b4 <;> decide

theorem byteFromBits_lt (b0 b1 b2 b3 b4 b5 b6 b7 : Bool) :
    byteFromBits b0 b1 b2 b3 b4 b5 b6 b7 < 256 := by
  cases b0 <;> cases b1 <;> cases b2 <;> cases b3 <;> cases b4 <;> cases b5 <;>
    cases b6 <;> cases b7 <;> decide

theorem byteFromBits_testBit (x : Nat) (h : x < 256) :
    byteFromBits (x.testBit 7) (x.testBit 6) (x.testBit 5) (x.testBit 4)
      (x.testBit 3) (x.testBit 2) (x.testBit 1) (x.testBit 0) = x := by
  revert h
  revert x
  decide

theorem fesToBits_cons (v : Nat) (rest : List Nat) :
    fesToBits (v :: rest) = feToBits v ++ fesToBits rest := by
  simp [fesToBits]

theorem bitsToFes_length_mod (bits : List Bool) :
    fesToBits (bitsToFes bits)
      = bits ++ List.replicate ((5 - bits.length % 5) % 5) false := by
  match bits with
  | [] => rfl
  | [b0] =>
    simp [bitsToFes, fesToBits, feToBits_fe5, List.replicate]
  | [b0, b1] =>
    simp [bitsToFes, fesToBits, feToBits_fe5, List.replicate]
  | [b0, b1, b2] =>
    simp [bitsToFes, fesToBits, feToBits_fe5, List.replicate]
  | [b0, b1, b2, b3] =>
    simp [bitsToFes, fesToBits, feToBits_fe5, List.replicate]
  | b0 :: b1 :: b2 :: b3 :: b4 :: (r0 :: rs) =>
    have ih := bitsToFes_length_mod (r0 :: rs)
    have hlen : (b0 :: b1 :: b2 :: b3 :: b4 :: (r0 :: rs)).length % 5
        = (r0 :: rs).length % 5 := by
      simp [List.length_cons]
      omega
    rw [show bitsToFes (b0 :: b1 :: b2 :: b3 :: b4 :: (r0 :: rs))
      = fe5 b0 b1 b2 b3 b4 :: bitsToFes (r0 :: rs) from rfl]
    rw [fesToBits_cons, feToBits_fe5, ih, hlen]
    rfl
  | [b0, b1, b2, b3, b4] =>
    simp [bitsToFes, fesToBits, feToBits_fe5, List.replicate]

theorem bitsToBytes_short (l : List Bool) (h : l.length < 8) :
    bitsToBytes l = [] := by
  rcases l with _ | ⟨a, _ | ⟨b, _ | ⟨c, _ | ⟨d, _ | ⟨e, _ | ⟨f, _ | ⟨g, _ | ⟨h8, t⟩⟩⟩⟩⟩⟩⟩⟩
  · rfl
  · rfl
  · rfl
  · rfl
  · rfl
  · rfl
  · rfl
  · rfl
  · simp at h
    omega

theorem bytesToBits_cons (x : Nat) (rest : List Nat) :
    bytesToBits (x :: rest) = byteToBits x ++ bytesToBits rest := by
  simp [bytesToBits]

theorem bitsToBytes_exact : ∀ (bytes : List Nat), (∀ b ∈ bytes, b < 256) →
    ∀ (extra : List Bool), extra.length < 8 →
    bitsToBytes (bytesToBits bytes ++ extra) = bytes := by
  intro bytes
  induction bytes with
  | nil =>
    intro _ extra hx
    show bitsToBytes ((([] : List Nat).map byteToBits).flatten ++ extra) = []
    simp only [List.map_nil, List.flatten_nil, List.nil_append]
    exact bitsToBytes_short extra hx
  | cons x rest ih =>
    intro hb extra hx
    rw [bytesToBits_cons]
    have hx256 : x < 256 := hb x (by simp)
    show bitsToBytes ((byteToBits x ++ bytesToBits rest) ++ extra) = x :: rest
    rw [List.append_assoc]
    show bitsToBytes (x.testBit 7 :: x.testBit 6 :: x.testBit 5 :: x.testBit 4 ::
      x.testBit 3 :: x.testBit 2 :: x.testBit 1 :: x.testBit 0 ::
        (bytesToBits rest ++ extra)) = x :: rest
    rw [show bitsToBytes (x.testBit 7 :: x.testBit 6 :: x.testBit 5 :: x.testBit 4 ::
      x.testBit 3 :: x.testBit 2 :: x.testBit 1 :: x.testBit 0 ::
        (bytesToBits rest ++ extra))
      = byteFromBits (x.testBit 7) (x.testBit 6) (x.testBit 5) (x.testBit 4)
          (x.testBit 3) (x.testBit 2) (x.testBit 1) (x.testBit 0)
        :: bitsToBytes (bytesToBits rest ++ extra) from rfl]
    rw [byteFromBits_testBit x hx256]
    rw [ih (fun b hbm => hb b (by simp [hbm])) extra hx]

/-- The 5-bit to 8-bit conversion inverts the 8-bit to 5-bit conversion
with padding, as the crate pairs them. -/
theorem fesToBytes_bytesToFes (bytes : List Nat) (h : ∀ b ∈ bytes, b < 256) :
    fesToBytes (bytesToFes bytes) = bytes := by
  unfold fesToBytes bytesToFes
  rw [bitsToFes_length_mod (bytesToBits bytes)]
  apply bitsToBytes_exact bytes h
  rw [List.length_replicate]
  omega

/-! ## Character-set and string facts for the codec -/

theorem bitsToFes_lt : ∀ (bits : List Bool), ∀ v ∈ bitsToFes bits, v < 32 := by
  intro bits
  match bits with
  | [] => intro v hv; cases hv
  | [b0] => intro v hv; simp [bitsToFes] at hv; subst hv; exact fe5_lt _ _ _ _ _
  | [b0, b1] =>
    intro v hv; simp [bitsToFes] at hv; subst hv; exact fe5_lt _ _ _ _ _
  | [b0, b1, b2] =>
    intro v hv; simp [bitsToFes] at hv; subst hv; exact fe5_lt _ _ _ _ _
  | [b0, b1, b2, b3] =>
    intro v hv; simp [bitsToFes] at hv; subst hv; exact fe5_lt _ _ _ _ _
  | b0 :: b1 :: b2 :: b3 :: b4 :: rest =>
    intro v hv
    rw [show bitsToFes (b0 :: b1 :: b2 :: b3 :: b4 :: rest)
      = fe5 b0 b1 b2 b3 b4 :: bitsToFes rest from rfl] at hv
    rcases List.mem_cons.1 hv with h | h
    · subst h; exact fe5_lt _ _ _ _ _
    · exact bitsToFes_lt rest v h

theorem createChecksum_lt (hrp : Str) (data : List Nat) :
    ∀ v ∈ createChecksum hrp data, v < 32 := by
  intro v hv
  have h31 : ∀ x : Nat, x &&& 31 < 32 :=
    fun x => lt_of_le_of_lt Nat.and_le_right (by norm_num)
  unfold createChecksum at hv
  simp only [List.mem_cons, List.not_mem_nil, or_false] at hv
  rcases hv with h | h | h | h | h | h <;> (subst h; exact h31 _)

theorem charsetChar_props : ∀ v, v < 32 →
    (charsetChar v).toNat ≤ 127 ∧ ¬('A' ≤ charsetChar v ∧ charsetChar v ≤ 'Z') ∧
    charsetChar v ≠ '1' ∧ asciiLowerChar (charsetChar v) = charsetChar v := by
  decide

theorem charsetIndex_charsetChar : ∀ v, v < 32 →
    charsetIndex (charsetChar v) = some v := by
  decide

theorem mapCharsetVals_map (vs : List Nat) (h : ∀ v ∈ vs, v < 32) :
    mapCharsetVals (vs.map charsetChar) = some vs := by
  induction vs with
  | nil => rfl
  | cons v rest ih =>
    show mapCharsetVals (charsetChar v :: rest.map charsetChar) = some (v :: rest)
    unfold mapCharsetVals
    rw [charsetIndex_charsetChar v (h v (by simp)),
      ih (fun x hx => h x (by simp [hx]))]

theorem takeWhile_append_all (p : Char → Bool) (l1 l2 : Str)
    (h : ∀ x ∈ l1, p x = true) :
    (l1 ++ l2).takeWhile p = l1 ++ l2.takeWhile p := by
  induction l1 with
  | nil => simp
  | cons a rest ih =>
    have ha : p a = true := h a (by simp)
    simp only [List.cons_append, List.takeWhile_cons, ha, if_true]
    rw [ih (fun x hx => h x (by simp [hx]))]

theorem dropWhile_append_all (p : Char → Bool) (l1 l2 : Str)
    (h : ∀ x ∈ l1, p x = true) :
    (l1 ++ l2).dropWhile p = l2.dropWhile p := by
  induction l1 with
  | nil => simp
  | cons a rest ih =>
    have ha : p a = true := h a (by simp)
    simp only [List.cons_append, List.dropWhile_cons, ha, if_true]
    exact ih (fun x hx => h x (by simp [hx]))

theorem lastSepSplit_append (hrp data : Str) (hd : '1' ∉ data) :
    lastSepSplit (hrp ++ '1' :: data) = some (hrp, data) := by
  unfold lastSepSplit
  have hrev : (hrp ++ '1' :: data).reverse
      = data.reverse ++ '1' :: hrp.reverse := by
    simp
  rw [hrev]
  dsimp only
  have hdall : ∀ x ∈ data.reverse, (fun c => decide (c ≠ '1')) x = true := by
    intro x hx
    simp only [decide_eq_true_iff]
    intro hx1
    subst hx1
    exact hd (List.mem_reverse.1 hx)
  rw [dropWhile_append_all _ _ _ hdall, takeWhile_append_all _ _ _ hdall]
  simp

theorem map_id_of_mem (f : Char → Char) (l : Str) (h : ∀ x ∈ l, f x = x) :
    l.map f = l := by
  induction l with
  | nil => rfl
  | cons a rest ih =>
    rw [List.map_cons, h a (by simp), ih (fun x hx => h x (by simp [hx]))]

theorem createChecksum_length (hrp : Str) (data : List Nat) :
    (createChecksum hrp data).length = 6 := rfl

/-- Decoding the bech32 encoding of a byte payload under the drep or
drep_script hrp recovers the hrp and the payload. -/
theorem decode_encode (hrp : Str)
    (hh : hrp = str "drep" ∨ hrp = str "drep_script")
    (bytes : List Nat) (hb : ∀ b ∈ bytes, b < 256) :
    decode_bech32 (hrp ++ '1' ::
      (bytesToFes bytes ++ createChecksum hrp (bytesToFes bytes)).map
        charsetChar) = .ok (hrp, bytes) := by
  have hvlt : ∀ v ∈ bytesToFes bytes ++ createChecksum hrp (bytesToFes bytes),
      v < 32 := by
    intro v hv
    rcases List.mem_append.1 hv with h | h
    · exact bitsToFes_lt (bytesToBits bytes) v h
    · exact createChecksum_lt hrp (bytesToFes bytes) v h
  have hchar : ∀ c ∈ (bytesToFes bytes ++
      createChecksum hrp (bytesToFes bytes)).map charsetChar,
      c.toNat ≤ 127 ∧ ¬('A' ≤ c ∧ c ≤ 'Z') ∧ c ≠ '1' ∧
        asciiLowerChar c = c := by
    intro c hc
    rcases List.mem_map.1 hc with ⟨v, hv, rfl⟩
    exact charsetChar_props v (hvlt v hv)
  have hhc : ∀ c ∈ hrp, c.toNat ≤ 127 ∧ ¬('A' ≤ c ∧ c ≤ 'Z') ∧
      asciiLowerChar c = c := by
    rcases hh with rfl | rfl
    · decide
    · decide
  have hhv : hrpValid hrp = true := by
    rcases hh with rfl | rfl
    · decide
    · decide
  set dataChars := (bytesToFes bytes ++
    createChecksum hrp (bytesToFes bytes)).map charsetChar with hdataChars
  have hascii : (hrp ++ '1' :: dataChars).all
      (fun c => decide (c.toNat ≤ 127)) = true := by
    apply List.all_eq_true.2
    intro c hc
    rcases List.mem_append.1 hc with h | h
    · exact decide_eq_true (hhc c h).1
    · rcases List.mem_cons.1 h with rfl | h
      · decide
      · exact decide_eq_true (hchar c h).1
  have hup : hasUpperChar (hrp ++ '1' :: dataChars) = false := by
    unfold hasUpperChar
    apply List.any_eq_false.2
    intro c hc
    rcases List.mem_append.1 hc with h | h
    · simp only [decide_eq_true_eq]
      exact (hhc c h).2.1
    · rcases List.mem_cons.1 h with rfl | h
      · decide
      · simp only [decide_eq_true_eq]
        exact (hchar c h).2.1
  have hlower : to_ascii_lowercase (hrp ++ '1' :: dataChars)
      = hrp ++ '1' :: dataChars := by
    unfold to_ascii_lowercase
    apply map_id_of_mem
    intro c hc
    rcases List.mem_append.1 hc with h | h
    · exact (hhc c h).2.2
    · rcases List.mem_cons.1 h with rfl | h
      · decide
      · exact (hchar c h).2.2.2
  have hsep : lastSepSplit (hrp ++ '1' :: dataChars)
      = some (hrp, dataChars) := by
    apply lastSepSplit_append
    intro h1
    exact ((hchar '1' h1).2.2.1) rfl
  have hlen : dataChars.length =
      (bytesToFes bytes).length + 6 := by
    rw [hdataChars, List.length_map, List.length_append,
      createChecksum_length]
  have hmap : mapCharsetVals dataChars
      = some (bytesToFes bytes ++ createChecksum hrp (bytesToFes bytes)) :=
    mapCharsetVals_map _ hvlt
  have hres : polymod (hrpExpand hrp ++
      (bytesToFes bytes ++ createChecksum hrp (bytesToFes bytes))) = 1 :=
    polymod_createChecksum hrp (bytesToFes bytes)
  unfold decode_bech32
  rw [hascii]
  rw [show (!true) = false from rfl, if_neg (by simp)]
  rw [hup]
  rw [show (false && hasLowerChar (hrp ++ '1' :: dataChars)) = false from
    Bool.false_and _, if_neg (by simp)]
  dsimp only
  rw [hlower, hsep]
  dsimp only
  rw [hhv]
  rw [show (!true) = false from rfl, if_neg (by simp)]
  rw [if_neg (by omega)]
  rw [hmap]
  dsimp only
  rw [hres]
  have hcond : (1 : Nat) = BECH32_CONST ∨ (1 : Nat) = BECH32M_CONST :=
    Or.inl rfl
  rw [if_pos hcond]
  have htake : (bytesToFes bytes ++ createChecksum hrp (bytesToFes bytes)).take
      ((bytesToFes bytes ++ createChecksum hrp (bytesToFes bytes)).length - 6)
      = bytesToFes bytes := by
    rw [List.length_append, createChecksum_length]
    rw [show (bytesToFes bytes).length + 6 - 6 = (bytesToFes bytes).length by omega]
    exact List.take_left _ _
  rw [htake, fesToBytes_bytesToFes bytes hb]

/-! ## Hex codec lemmas -/

theorem hexEncode_cons (b : Nat) (rest : List Nat) :
    hexEncode (b :: rest)
      = hexDigitChar (b / 16) :: hexDigitChar (b % 16) :: hexEncode rest := rfl

theorem hexEncode_length (bytes : List Nat) :
    (hexEncode bytes).length = 2 * bytes.length := by
  induction bytes with
  | nil => rfl
  | cons b rest ih =>
    rw [hexEncode_cons]
    simp [ih]
    omega

theorem hexDigitVal_hexDigitChar : ∀ d, d < 16 →
    hexDigitVal (hexDigitChar d) = some d := by
  decide

theorem hexDecode_hexEncode (bytes : List Nat) (h : ∀ b ∈ bytes, b < 256) :
    hexDecode (hexEncode bytes) = .ok bytes := by
  induction bytes with
  | nil => rfl
  | cons b rest ih =>
    rw [hexEncode_cons]
    have hb : b < 256 := h b (by simp)
    unfold hexDecode
    rw [hexDigitVal_hexDigitChar (b / 16) (by omega),
      hexDigitVal_hexDigitChar (b % 16) (by omega),
      ih (fun x hx => h x (by simp [hx]))]
    have heq : b / 16 * 16 + b % 16 = b := by omega
    show Except.ok ((b / 16 * 16 + b % 16) :: rest) = Except.ok (b :: rest)
    rw [heq]

/-! ## Decoded payload bytes are in byte range -/

theorem bitsToBytes_lt : ∀ (l : List Bool), ∀ b ∈ bitsToBytes l, b < 256 := by
  intro l
  rcases l with _ | ⟨a, _ | ⟨b, _ | ⟨c, _ | ⟨d, _ | ⟨e, _ | ⟨f, _ | ⟨g, _ | ⟨h8, t⟩⟩⟩⟩⟩⟩⟩⟩
  · intro x hx; cases hx
  · intro x hx; cases hx
  · intro x hx; cases hx
  · intro x hx; cases hx
  · intro x hx; cases hx
  · intro x hx; cases hx
  · intro x hx; cases hx
  · intro x hx; cases hx
  · intro x hx
    rw [show bitsToBytes (a :: b :: c :: d :: e :: f :: g :: h8 :: t)
      = byteFromBits a b c d e f g h8 :: bitsToBytes t from rfl] at hx
    rcases List.mem_cons.1 hx with h | h
    · subst h; exact byteFromBits_lt _ _ _ _ _ _ _ _
    · exact bitsToBytes_lt t x h

theorem decode_bytes_lt (s : Str) (hrp : Str) (bytes : List Nat)
    (h : decode_bech32 s = .ok (hrp, bytes)) : ∀ b ∈ bytes, b < 256 := by
  unfold decode_bech32 at h
  repeat'
    first
    | split at h
    | dsimp only at h
  all_goals try (cases h)
  all_goals exact bitsToBytes_lt _

theorem encode_bech32_ok (hrp : Str) (bytes : List Nat)
    (h : hrpValid hrp = true) :
    encode_bech32 hrp bytes = .ok (bech32Render hrp bytes) := by
  unfold encode_bech32 bech32Render
  rw [if_pos h]

theorem decode_bech32_render (hrp : Str)
    (hh : hrp = str "drep" ∨ hrp = str "drep_script")
    (bytes : List Nat) (hb : ∀ b ∈ bytes, b < 256) :
    decode_bech32 (bech32Render hrp bytes) = .ok (hrp, bytes) :=
  decode_encode hrp hh bytes hb

/-- is_bech_id_script_based with the cip105 flag set reduces to the
drep_script prefix test. -/
theorem is_bech_script_flag (id : Str) :
    is_bech_id_script_based id true = starts_with id (str "drep_script1") := by
  unfold is_bech_id_script_based
  cases h : starts_with id (str "drep_script1") with
  | true => rw [if_pos rfl]
  | false =>
    rw [if_neg (by simp)]
    cases hd : decode_drep_id_to_hex id with
    | error e => rfl
    | ok hx => simp

/-- convert_to_cip129 on a decodable 28-byte (CIP-105) identifier prefixes
the payload with the type discriminant byte and re-encodes under drep. -/
theorem convert_to_cip129_spec (id hrp : Str) (bytes : List Nat)
    (hvalid : is_valid_drep_id id = true)
    (hdec : decode_bech32 id = .ok (hrp, bytes))
    (hlen : bytes.length = 28) :
    convert_to_cip129 id = .ok (bech32Render (str "drep")
      ((if starts_with id (str "drep_script1") = true then 35 else 34)
        :: bytes)) := by
  have hb : ∀ b ∈ bytes, b < 256 := decode_bytes_lt id hrp bytes hdec
  have hhex : decode_drep_id_to_hex id = .ok (hexEncode bytes) := by
    unfold decode_drep_id_to_hex
    rw [hdec]
  have hlen56 : is_hex_id_cip105 (hexEncode bytes) = true := by
    unfold is_hex_id_cip105
    rw [hexEncode_length, hlen]
    decide
  cases hs0 : starts_with id (str "drep_script1") with
  | true =>
    have h35 : hexDecode (str "23" ++ hexEncode bytes) = .ok (35 :: bytes) := by
      rw [show str "23" ++ hexEncode bytes = hexEncode (35 :: bytes) from rfl]
      refine hexDecode_hexEncode _ ?_
      intro b hb2
      rcases List.mem_cons.1 hb2 with rfl | hm
      · norm_num
      · exact hb b hm
    simp only [convert_to_cip129, hvalid, Bool.not_true, Bool.false_eq_true,
      if_false, hhex, hlen56, convert_cip105_to_cip129, is_bech_script_flag,
      hs0, if_true, hex_to_bech32, h35, Bool.false_and, Bool.not_true,
      Bool.false_eq_true]
    rw [encode_bech32_ok _ _ (by decide)]
  | false =>
    have h34 : hexDecode (str "22" ++ hexEncode bytes) = .ok (34 :: bytes) := by
      rw [show str "22" ++ hexEncode bytes = hexEncode (34 :: bytes) from rfl]
      refine hexDecode_hexEncode _ ?_
      intro b hb2
      rcases List.mem_cons.1 hb2 with rfl | hm
      · norm_num
      · exact hb b hm
    simp only [convert_to_cip129, hvalid, Bool.not_true, Bool.false_eq_true,
      if_false, hhex, hlen56, convert_cip105_to_cip129, is_bech_script_flag,
      hs0, if_false, hex_to_bech32, h34, Bool.false_and, Bool.not_true,
      Bool.false_eq_true]
    rw [encode_bech32_ok _ _ (by decide)]

/-- convert_to_cip105 on the drep-encoded 29-byte (CIP-129) form strips
the discriminant byte and re-encodes under drep or drep_script. -/
theorem convert_to_cip105_render (p : Nat) (hp : p = 35 ∨ p = 34)
    (bytes : List Nat) (hlen : bytes.length = 28)
    (hb : ∀ b ∈ bytes, b < 256) :
    convert_to_cip105 (bech32Render (str "drep") (p :: bytes))
      = .ok (bech32Render
          (if p = 35 then str "drep_script" else str "drep") bytes) := by
  have hbp : ∀ b ∈ p :: bytes, b < 256 := by
    intro b hb2
    rcases List.mem_cons.1 hb2 with rfl | hm
    · rcases hp with rfl | rfl <;> norm_num
    · exact hb b hm
  have hdec : decode_bech32 (bech32Render (str "drep") (p :: bytes))
      = .ok (str "drep", p :: bytes) :=
    decode_bech32_render _ (Or.inl rfl) _ hbp
  have hvalid : is_valid_drep_id (bech32Render (str "drep") (p :: bytes))
      = true := by
    unfold is_valid_drep_id
    have hsw : starts_with (bech32Render (str "drep") (p :: bytes))
        (str "drep1") = true := by
      simp [starts_with, bech32Render, str, List.isPrefixOf]
    rw [hsw]
    simp
  have hhex : decode_drep_id_to_hex (bech32Render (str "drep") (p :: bytes))
      = .ok (hexEncode (p :: bytes)) := by
    unfold decode_drep_id_to_hex
    rw [hdec]
  have hnot56 : is_hex_id_cip105 (hexEncode (p :: bytes)) = false := by
    unfold is_hex_id_cip105
    rw [hexEncode_length]
    simp [hlen]
  have hlen56 : is_hex_id_cip105 (hexEncode bytes) = true := by
    unfold is_hex_id_cip105
    rw [hexEncode_length, hlen]
    decide
  have hdrop : (hexEncode (p :: bytes)).drop 2 = hexEncode bytes := by
    rw [hexEncode_cons]
    rfl
  have hdecode2 : hexDecode (hexEncode bytes) = .ok bytes :=
    hexDecode_hexEncode bytes hb
  rcases hp with rfl | rfl
  · have hsw23 : starts_with (hexEncode (35 :: bytes)) (str "23") = true := by
      rw [hexEncode_cons, show hexDigitChar (35 / 16) = '2' from by decide,
        show hexDigitChar (35 % 16) = '3' from by decide]
      simp [starts_with, str, List.isPrefixOf]
    simp only [convert_to_cip105, hvalid, Bool.not_true, Bool.false_eq_true,
      if_false, hhex, hnot56, convert_cip129_to_cip105, hdrop, hsw23,
      hex_to_bech32, hdecode2, hlen56, Bool.not_false, Bool.true_and, if_true]
    rw [encode_bech32_ok _ _ (by decide)]
  · have hsw23 : starts_with (hexEncode (34 :: bytes)) (str "23") = false := by
      rw [hexEncode_cons, show hexDigitChar (34 / 16) = '2' from by decide]
      simp [starts_with, str, List.isPrefixOf]
    simp only [convert_to_cip105, hvalid, Bool.not_true, Bool.false_eq_true,
      if_false, hhex, hnot56, convert_cip129_to_cip105, hdrop, hsw23,
      hex_to_bech32, hdecode2, hlen56, Bool.not_false, Bool.true_and, if_true]
    rw [encode_bech32_ok _ _ (by decide)]
    simp

/-! ## Claim C8: codec round-trip idempotence -/

/-- Claim C8 (confirmed): for every valid CIP-105 delegate identifier
(an identifier accepted by is_valid_drep_id whose bech32 payload is 28
bytes), converting it to CIP-105 is a no-op, and the chained conversion
toCip129 after toCip105 after toCip129 equals the single toCip129
conversion. -/
theorem C8_codec_roundtrip :
    ∀ (id hrp : Str) (bytes : List Nat),
      is_valid_drep_id id = true →
      decode_bech32 id = .ok (hrp, bytes) →
      bytes.length = 28 →
      convert_to_cip105 id = .ok id ∧
      ((convert_to_cip129 id).bind convert_to_cip105).bind convert_to_cip129
        = convert_to_cip129 id := by
  intro id hrp bytes hvalid hdec hlen
  have hb := decode_bytes_lt id hrp bytes hdec
  have hhex : decode_drep_id_to_hex id = .ok (hexEncode bytes) := by
    unfold decode_drep_id_to_hex
    rw [hdec]
  have hlen56 : is_hex_id_cip105 (hexEncode bytes) = true := by
    unfold is_hex_id_cip105
    rw [hexEncode_length, hlen]
    decide
  constructor
  · simp only [convert_to_cip105, hvalid, Bool.not_true, Bool.false_eq_true,
      if_false, hhex, hlen56, if_true]
  · have h1 := convert_to_cip129_spec id hrp bytes hvalid hdec hlen
    cases hs0 : starts_with id (str "drep_script1") with
    | true =>
      rw [hs0, if_pos rfl] at h1
      rw [h1]
      show (convert_to_cip105
        (bech32Render (str "drep") (35 :: bytes))).bind convert_to_cip129
          = Except.ok (bech32Render (str "drep") (35 :: bytes))
      have h2 := convert_to_cip105_render 35 (Or.inl rfl) bytes hlen hb
      rw [if_pos rfl] at h2
      rw [h2]
      show convert_to_cip129 (bech32Render (str "drep_script") bytes)
        = Except.ok (bech32Render (str "drep") (35 :: bytes))
      have hdec2 := decode_bech32_render (str "drep_script") (Or.inr rfl)
        bytes hb
      have hsw2 : starts_with (bech32Render (str "drep_script") bytes)
          (str "drep_script1") = true := by
        simp [starts_with, bech32Render, str, List.isPrefixOf]
      have hvalid2 : is_valid_drep_id (bech32Render (str "drep_script") bytes)
          = true := by
        unfold is_valid_drep_id
        rw [hsw2]
        simp
      have h3 := convert_to_cip129_spec _ _ bytes hvalid2 hdec2 hlen
      rw [hsw2, if_pos rfl] at h3
      exact h3
    | false =>
      rw [hs0, if_neg (by simp)] at h1
      rw [h1]
      show (convert_to_cip105
        (bech32Render (str "drep") (34 :: bytes))).bind convert_to_cip129
          = Except.ok (bech32Render (str "drep") (34 :: bytes))
      have h2 := convert_to_cip105_render 34 (Or.inr rfl) bytes hlen hb
      rw [if_neg (by norm_num)] at h2
      rw [h2]
      show convert_to_cip129 (bech32Render (str "drep") bytes)
        = Except.ok (bech32Render (str "drep") (34 :: bytes))
      have hdec2 := decode_bech32_render (str "drep") (Or.inl rfl) bytes hb
      have hsw2 : starts_with (bech32Render (str "drep") bytes)
          (str "drep_script1") = false := by
        simp [starts_with, bech32Render, str, List.isPrefixOf]
      have hvalid2 : is_valid_drep_id (bech32Render (str "drep") bytes)
          = true := by
        unfold is_valid_drep_id
        have hsw1 : starts_with (bech32Render (str "drep") bytes)
            (str "drep1") = true := by
          simp [starts_with, bech32Render, str, List.isPrefixOf]
        rw [hsw1]
        simp
      have h3 := convert_to_cip129_spec _ _ bytes hvalid2 hdec2 hlen
      rw [hsw2, if_neg (by simp)] at h3
      exact h3

/-- Witness for C8 at a concrete 28-byte CIP-105 identifier. -/
theorem C8_witness :
    is_valid_drep_id
        (str "drep1qypqxpq9qcrsszg2pvxq6rs0zqg3yyc5z5tpwxqergd3cpvc53e")
        = true ∧
    convert_to_cip105
        (str "drep1qypqxpq9qcrsszg2pvxq6rs0zqg3yyc5z5tpwxqergd3cpvc53e")
      = .ok (str "drep1qypqxpq9qcrsszg2pvxq6rs0zqg3yyc5z5tpwxqergd3cpvc53e") ∧
    ((convert_to_cip129
        (str "drep1qypqxpq9qcrsszg2pvxq6rs0zqg3yyc5z5tpwxqergd3cpvc53e")).bind
      convert_to_cip105).bind convert_to_cip129
      = convert_to_cip129
          (str "drep1qypqxpq9qcrsszg2pvxq6rs0zqg3yyc5z5tpwxqergd3cpvc53e") := by
  have h := C8_codec_roundtrip
    (str "drep1qypqxpq9qcrsszg2pvxq6rs0zqg3yyc5z5tpwxqergd3cpvc53e")
    (str "drep")
    [1, 2, 3, 4, 5, 6, 7, 8, 9, 10, 11, 12, 13, 14, 15, 16, 17, 18, 19, 20,
     21, 22, 23, 24, 25, 26, 27, 28]
    (by decide) (by decide) (by decide)
  exact ⟨by decide, h.1, h.2⟩

/-! ## Digest shape lemmas -/

theorem blake2bBlocks_length : ∀ (fuel : Nat) (h msg : List Nat) (p : Nat),
    h.length = 8 → (blake2bBlocks fuel h msg p).length = 8 := by
  intro fuel
  induction fuel with
  | zero => intro h msg p hh; exact hh
  | succ n ih =>
    intro h msg p hh
    unfold blake2bBlocks
    split
    · unfold blakeCompress
      simp
    · apply ih
      unfold blakeCompress
      simp

theorem flatten_wordLE_length : ∀ (l : List Nat),
    ((l.map wordLEBytes).flatten).length = 8 * l.length := by
  intro l
  induction l with
  | nil => rfl
  | cons x rest ih =>
    simp only [List.map_cons, List.flatten_cons, List.length_append, ih,
      List.length_cons]
    show (wordLEBytes x).length + 8 * rest.length = 8 * (rest.length + 1)
    rw [show (wordLEBytes x).length = 8 from rfl]
    omega

theorem blake2b_256_length (msg : List Nat) : (blake2b_256 msg).length = 32 := by
  unfold blake2b_256
  rw [List.length_take, flatten_wordLE_length,
    blake2bBlocks_length (msg.length + 1) _ msg 0 (by simp [BLAKE2B_IV])]
  decide

theorem hexDigitChar_hex : ∀ d, is_ascii_hexdigit (hexDigitChar d) = true := by
  intro d
  match d with
  | 0 | 1 | 2 | 3 | 4 | 5 | 6 | 7 | 8 | 9 | 10 | 11 | 12 | 13 | 14 => decide
  | n + 15 => rfl

theorem hexDigitChar_not_ws : ∀ d, isWs (hexDigitChar d) = false := by
  intro d
  match d with
  | 0 | 1 | 2 | 3 | 4 | 5 | 6 | 7 | 8 | 9 | 10 | 11 | 12 | 13 | 14 => decide
  | n + 15 => rfl

theorem hexDigitChar_ne_x : ∀ d, hexDigitChar d ≠ 'x' := by
  intro d
  match d with
  | 0 | 1 | 2 | 3 | 4 | 5 | 6 | 7 | 8 | 9 | 10 | 11 | 12 | 13 | 14 => decide
  | n + 15 =>
    show ('f' : Char) ≠ 'x'
    decide

theorem hexDigitChar_lower : ∀ d, asciiLowerChar (hexDigitChar d) = hexDigitChar d := by
  intro d
  match d with
  | 0 | 1 | 2 | 3 | 4 | 5 | 6 | 7 | 8 | 9 | 10 | 11 | 12 | 13 | 14 => decide
  | n + 15 => rfl

theorem hexEncode_mem (bytes : List Nat) :
    ∀ c ∈ hexEncode bytes, ∃ d, c = hexDigitChar d := by
  induction bytes with
  | nil => intro c hc; cases hc
  | cons b rest ih =>
    intro c hc
    rw [hexEncode_cons] at hc
    rcases List.mem_cons.1 hc with rfl | hc
    · exact ⟨b / 16, rfl⟩
    · rcases List.mem_cons.1 hc with rfl | hc
      · exact ⟨b % 16, rfl⟩
      · exact ih c hc

theorem hexEncode_all_hex (bytes : List Nat) :
    ∀ c ∈ hexEncode bytes, is_ascii_hexdigit c = true := by
  intro c hc
  obtain ⟨d, rfl⟩ := hexEncode_mem bytes c hc
  exact hexDigitChar_hex d

theorem dropWhile_of_head_false (p : Char → Bool) (l : Str)
    (h : ∀ c ∈ l, p c = false) : l.dropWhile p = l := by
  cases l with
  | nil => rfl
  | cons a t =>
    simp only [List.dropWhile_cons, h a (by simp)]
    simp

theorem strTrim_of_no_ws (l : Str) (h : ∀ c ∈ l, isWs c = false) :
    strTrim l = l := by
  unfold strTrim
  rw [dropWhile_of_head_false _ _ h,
    dropWhile_of_head_false _ _ (fun c hc => h c (List.mem_reverse.1 hc)),
    List.reverse_reverse]

theorem strTrim_hexEncode (bytes : List Nat) :
    strTrim (hexEncode bytes) = hexEncode bytes := by
  apply strTrim_of_no_ws
  intro c hc
  obtain ⟨d, rfl⟩ := hexEncode_mem bytes c hc
  exact hexDigitChar_not_ws d

theorem trimStart0x_of_hex (s : Str)
    (h : ∀ c ∈ s, is_ascii_hexdigit c = true) : trimStart0x s = s := by
  match s with
  | [] => rfl
  | [c] =>
    unfold trimStart0x
    split
    · rename_i heq
      simp at heq
    · rfl
  | c1 :: c2 :: rest =>
    unfold trimStart0x
    split
    · rename_i rest2 heq
      have h2 : c2 = 'x' := by
        injection heq with h1 hrest
        injection hrest with h2 _
      have := h c2 (by simp)
      rw [h2] at this
      cases this
    · rfl

theorem lower_hexEncode (bytes : List Nat) :
    to_ascii_lowercase (hexEncode bytes) = hexEncode bytes := by
  apply map_id_of_mem
  intro c hc
  obtain ⟨d, rfl⟩ := hexEncode_mem bytes c hc
  exact hexDigitChar_lower d

/-! ## evaluate_hash path lemmas -/

theorem fetch_and_hash_badfmt (fetch : Str → HttpFetch)
    (parse : List Nat → Option Json) (u h : Str)
    (hbad : ((trimStart0x h).length == 64
        && (trimStart0x h).all is_ascii_hexdigit) = false) :
    fetch_and_hash fetch parse u h = .error () := by
  simp [fetch_and_hash, hbad]

theorem fetch_and_hash_badurl (fetch : Str → HttpFetch)
    (parse : List Nat → Option Json) (u h : Str)
    (hres : resolve_url u = .error ()) :
    fetch_and_hash fetch parse u h = .error () := by
  cases hb : ((trimStart0x h).length == 64
      && (trimStart0x h).all is_ascii_hexdigit) with
  | false => exact fetch_and_hash_badfmt fetch parse u h hb
  | true => simp [fetch_and_hash, hb, hres]

theorem fetch_and_hash_fetcherr (fetch : Str → HttpFetch)
    (parse : List Nat → Option Json) (u h resolved : Str)
    (hres : resolve_url u = .ok resolved)
    (hfe : fetch resolved = .httpError ∨ fetch resolved = .networkError) :
    fetch_and_hash fetch parse u h = .error () := by
  cases hb : ((trimStart0x h).length == 64
      && (trimStart0x h).all is_ascii_hexdigit) with
  | false => exact fetch_and_hash_badfmt fetch parse u h hb
  | true => rcases hfe with hfe | hfe <;> simp [fetch_and_hash, hb, hres, hfe]

theorem fetch_and_hash_oversize (fetch : Str → HttpFetch)
    (parse : List Nat → Option Json) (u h resolved : Str) (bytes : List Nat)
    (hres : resolve_url u = .ok resolved)
    (hfetch : fetch resolved = .success bytes)
    (hsize : bytes.length > DEFAULT_MAX_BYTES) :
    fetch_and_hash fetch parse u h = .error () := by
  cases hb : ((trimStart0x h).length == 64
      && (trimStart0x h).all is_ascii_hexdigit) with
  | false => exact fetch_and_hash_badfmt fetch parse u h hb
  | true => simp [fetch_and_hash, hb, hres, hfetch, hsize]

theorem fetch_and_hash_success (fetch : Str → HttpFetch)
    (parse : List Nat → Option Json) (u h resolved : Str) (bytes : List Nat)
    (hres : resolve_url u = .ok resolved)
    (hfetch : fetch resolved = .success bytes)
    (hsize : bytes.length ≤ DEFAULT_MAX_BYTES)
    (hlen : (trimStart0x h).length = 64)
    (hhex : (trimStart0x h).all is_ascii_hexdigit = true) :
    fetch_and_hash fetch parse u h = .ok
      { url := resolved
        bytes_read := some bytes.length
        computed_hash := hexEncode (blake2b_256 bytes)
        expected_hash := to_ascii_lowercase (trimStart0x h)
        hash_matches := hexEncode (blake2b_256 bytes)
          == to_ascii_lowercase (trimStart0x h)
        document := parse bytes } := by
  have hns : ¬ bytes.length > DEFAULT_MAX_BYTES := by omega
  simp [fetch_and_hash, hres, hfetch, hlen, hhex, hns]

theorem evaluate_hash_error (fetch : Str → HttpFetch)
    (parse : List Nat → Option Json) (url hash : Str)
    (herr : fetch_and_hash fetch parse (strTrim url) (strTrim hash)
      = .error ()) :
    (evaluate_hash fetch parse (some url) (some hash)).1.status
      = CheckStatus.Fail := by
  simp [evaluate_hash, herr, CheckOutcome.fail]

theorem evaluate_hash_matches (fetch : Str → HttpFetch)
    (parse : List Nat → Option Json) (url hash resolved : Str)
    (bytes : List Nat)
    (hres : resolve_url (strTrim url) = .ok resolved)
    (hfetch : fetch resolved = .success bytes)
    (hsize : bytes.length ≤ DEFAULT_MAX_BYTES)
    (hlen : (trimStart0x (strTrim hash)).length = 64)
    (hhex : (trimStart0x (strTrim hash)).all is_ascii_hexdigit = true) :
    ((evaluate_hash fetch parse (some url) (some hash)).1.status
        = CheckStatus.Pass ↔
      hexEncode (blake2b_256 bytes)
        = to_ascii_lowercase (trimStart0x (strTrim hash))) ∧
    ((evaluate_hash fetch parse (some url) (some hash)).1.status
        = CheckStatus.Fail ↔
      ¬ hexEncode (blake2b_256 bytes)
        = to_ascii_lowercase (trimStart0x (strTrim hash))) := by
  have hfh := fetch_and_hash_success fetch parse (strTrim url) (strTrim hash)
    resolved bytes hres hfetch hsize hlen hhex
  by_cases hm : hexEncode (blake2b_256 bytes)
      = to_ascii_lowercase (trimStart0x (strTrim hash))
  · simp [evaluate_hash, hfh, hm, CheckOutcome.pass]
  · simp [evaluate_hash, hfh, hm, CheckOutcome.fail]

set_option maxHeartbeats 1000000 in
theorem C6mutChunk0 : ∀ r, r < 16 → 16 * 0 + r ≠ 0x74 →
    hexEncode (blake2b_256 [16 * 0 + r]) ≠ str "bea4bbfe44f2db4c9e32775c1178c391ee22155316be750be8c9d15606e5df10" := by
  decide

set_option maxHeartbeats 1000000 in
theorem C6mutChunk1 : ∀ r, r < 16 → 16 * 1 + r ≠ 0x74 →
    hexEncode (blake2b_256 [16 * 1 + r]) ≠ str "bea4bbfe44f2db4c9e32775c1178c391ee22155316be750be8c9d15606e5df10" := by
  decide

set_option maxHeartbeats 1000000 in
theorem C6mutChunk2 : ∀ r, r < 16 → 16 * 2 + r ≠ 0x74 →
    hexEncode (blake2b_256 [16 * 2 + r]) ≠ str "bea4bbfe44f2db4c9e32775c1178c391ee22155316be750be8c9d15606e5df10" := by
  decide

set_option maxHeartbeats 1000000 in
theorem C6mutChunk3 : ∀ r, r < 16 → 16 * 3 + r ≠ 0x74 →
    hexEncode (blake2b_256 [16 * 3 + r]) ≠ str "bea4bbfe44f2db4c9e32775c1178c391ee22155316be750be8c9d15606e5df10" := by
  decide

set_option maxHeartbeats 1000000 in
theorem C6mutChunk4 : ∀ r, r < 16 → 16 * 4 + r ≠ 0x74 →
    hexEncode (blake2b_256 [16 * 4 + r]) ≠ str "bea4bbfe44f2db4c9e32775c1178c391ee22155316be750be8c9d15606e5df10" := by
  decide

set_option maxHeartbeats 1000000 in
theorem C6mutChunk5 : ∀ r, r < 16 → 16 * 5 + r ≠ 0x74 →
    hexEncode (blake2b_256 [16 * 5 + r]) ≠ str "bea4bbfe44f2db4c9e32775c1178c391ee22155316be750be8c9d15606e5df10" := by
  decide

set_option maxHeartbeats 1000000 in
theorem C6mutChunk6 : ∀ r, r < 16 → 16 * 6 + r ≠ 0x74 →
    hexEncode (blake2b_256 [16 * 6 + r]) ≠ str "bea4bbfe44f2db4c9e32775c1178c391ee22155316be750be8c9d15606e5df10" := by
  decide

set_option maxHeartbeats 1000000 in
theorem C6mutChunk7 : ∀ r, r < 16 → 16 * 7 + r ≠ 0x74 →
    hexEncode (blake2b_256 [16 * 7 + r]) ≠ str "bea4bbfe44f2db4c9e32775c1178c391ee22155316be750be8c9d15606e5df10" := by
  decide

set_option maxHeartbeats 1000000 in
theorem C6mutChunk8 : ∀ r, r < 16 → 16 * 8 + r ≠ 0x74 →
    hexEncode (blake2b_256 [16 * 8 + r]) ≠ str "bea4bbfe44f2db4c9e32775c1178c391ee22155316be750be8c9d15606e5df10" := by
  decide

set_option maxHeartbeats 1000000 in
theorem C6mutChunk9 : ∀ r, r < 16 → 16 * 9 + r ≠ 0x74 →
    hexEncode (blake2b_256 [16 * 9 + r]) ≠ str "bea4bbfe44f2db4c9e32775c1178c391ee22155316be750be8c9d15606e5df10" := by
  decide

set_option maxHeartbeats 1000000 in
theorem C6mutChunk10 : ∀ r, r < 16 → 16 * 10 + r ≠ 0x74 →
    hexEncode (blake2b_256 [16 * 10 + r]) ≠ str "bea4bbfe44f2db4c9e32775c1178c391ee22155316be750be8c9d15606e5df10" := by
  decide

set_option maxHeartbeats 1000000 in
theorem C6mutChunk11 : ∀ r, r < 16 → 16 * 11 + r ≠ 0x74 →
    hexEncode (blake2b_256 [16 * 11 + r]) ≠ str "bea4bbfe44f2db4c9e32775c1178c391ee22155316be750be8c9d15606e5df10" := by
  decide

set_option maxHeartbeats 1000000 in
theorem C6mutChunk12 : ∀ r, r < 16 → 16 * 12 + r ≠ 0x74 →
    hexEncode (blake2b_256 [16 * 12 + r]) ≠ str "bea4bbfe44f2db4c9e32775c1178c391ee22155316be750be8c9d15606e5df10" := by
  decide

set_option maxHeartbeats 1000000 in
theorem C6mutChunk13 : ∀ r, r < 16 → 16 * 13 + r ≠ 0x74 →
    hexEncode (blake2b_256 [16 * 13 + r]) ≠ str "bea4bbfe44f2db4c9e32775c1178c391ee22155316be750be8c9d15606e5df10" := by
  decide

set_option maxHeartbeats 1000000 in
theorem C6mutChunk14 : ∀ r, r < 16 → 16 * 14 + r ≠ 0x74 →
    hexEncode (blake2b_256 [16 * 14 + r]) ≠ str "bea4bbfe44f2db4c9e32775c1178c391ee22155316be750be8c9d15606e5df10" := by
  decide

set_option maxHeartbeats 1000000 in
theorem C6mutChunk15 : ∀ r, r < 16 → 16 * 15 + r ≠ 0x74 →
    hexEncode (blake2b_256 [16 * 15 + r]) ≠ str "bea4bbfe44f2db4c9e32775c1178c391ee22155316be750be8c9d15606e5df10" := by
  decide

theorem C6_mut_all : ∀ v, v < 256 → v ≠ 0x74 →
    hexEncode (blake2b_256 [v]) ≠ str "bea4bbfe44f2db4c9e32775c1178c391ee22155316be750be8c9d15606e5df10" := by
  intro v hv hne
  obtain ⟨q, r, hr, rfl⟩ : ∃ q r, r < 16 ∧ v = 16 * q + r :=
    ⟨v / 16, v % 16, by omega, by omega⟩
  have hq : q < 16 := by omega
  interval_cases q
  · exact C6mutChunk0 r hr (by omega)
  · exact C6mutChunk1 r hr (by omega)
  · exact C6mutChunk2 r hr (by omega)
  · exact C6mutChunk3 r hr (by omega)
  · exact C6mutChunk4 r hr (by omega)
  · exact C6mutChunk5 r hr (by omega)
  · exact C6mutChunk6 r hr (by omega)
  · exact C6mutChunk7 r hr (by omega)
  · exact C6mutChunk8 r hr (by omega)
  · exact C6mutChunk9 r hr (by omega)
  · exact C6mutChunk10 r hr (by omega)
  · exact C6mutChunk11 r hr (by omega)
  · exact C6mutChunk12 r hr (by omega)
  · exact C6mutChunk13 r hr (by omega)
  · exact C6mutChunk14 r hr (by omega)
  · exact C6mutChunk15 r hr (by omega)

set_option maxHeartbeats 4000000 in
/-- C6: metadata hash check.  (1) An expected hash that is not 64 hex
characters after stripping leading "0x" repetitions makes the check Fail;
(2) a URL that resolves to no fetchable scheme makes it Fail; (3) an HTTP
or network fetch failure makes it Fail; (4) an oversized body makes it
Fail; (5) on a successful in-size fetch with a well-formed expected hash,
the check Passes exactly when the lowercase hex encoding of the BLAKE2b-256
digest of the body equals the lowercased expected hash, and Fails exactly
otherwise; (6) a body paired with its true digest always Passes; (7) for
the one-byte body 0x74 with its true digest
bea4bbfe44f2db4c9e32775c1178c391ee22155316be750be8c9d15606e5df10, every
one of the 255 single-byte mutations of the body makes the check Fail. -/
theorem C6_hash_check :
    (∀ (fetch : Str → HttpFetch) (parse : List Nat → Option Json)
        (url hash : Str),
      ¬ ((trimStart0x (strTrim hash)).length = 64 ∧
          (trimStart0x (strTrim hash)).all is_ascii_hexdigit = true) →
      (evaluate_hash fetch parse (some url) (some hash)).1.status
        = CheckStatus.Fail) ∧
    (∀ (fetch : Str → HttpFetch) (parse : List Nat → Option Json)
        (url hash : Str),
      resolve_url (strTrim url) = .error () →
      (evaluate_hash fetch parse (some url) (some hash)).1.status
        = CheckStatus.Fail) ∧
    (∀ (fetch : Str → HttpFetch) (parse : List Nat → Option Json)
        (url hash resolved : Str),
      resolve_url (strTrim url) = .ok resolved →
      (fetch resolved = .httpError ∨ fetch resolved = .networkError) →
      (evaluate_hash fetch parse (some url) (some hash)).1.status
        = CheckStatus.Fail) ∧
    (∀ (fetch : Str → HttpFetch) (parse : List Nat → Option Json)
        (url hash resolved : Str) (bytes : List Nat),
      resolve_url (strTrim url) = .ok resolved →
      fetch resolved = .success bytes →
      bytes.length > DEFAULT_MAX_BYTES →
      (evaluate_hash fetch parse (some url) (some hash)).1.status
        = CheckStatus.Fail) ∧
    (∀ (fetch : Str → HttpFetch) (parse : List Nat → Option Json)
        (url hash resolved : Str) (bytes : List Nat),
      resolve_url (strTrim url) = .ok resolved →
      fetch resolved = .success bytes →
      bytes.length ≤ DEFAULT_MAX_BYTES →
      (trimStart0x (strTrim hash)).length = 64 →
      (trimStart0x (strTrim hash)).all is_ascii_hexdigit = true →
      ((evaluate_hash fetch parse (some url) (some hash)).1.status
          = CheckStatus.Pass ↔
        hexEncode (blake2b_256 bytes)
          = to_ascii_lowercase (trimStart0x (strTrim hash))) ∧
      ((evaluate_hash fetch parse (some url) (some hash)).1.status
          = CheckStatus.Fail ↔
        ¬ hexEncode (blake2b_256 bytes)
          = to_ascii_lowercase (trimStart0x (strTrim hash)))) ∧
    (∀ (fetch : Str → HttpFetch) (parse : List Nat → Option Json)
        (url resolved : Str) (bytes : List Nat),
      resolve_url (strTrim url) = .ok resolved →
      fetch resolved = .success bytes →
      bytes.length ≤ DEFAULT_MAX_BYTES →
      (evaluate_hash fetch parse (some url)
        (some (hexEncode (blake2b_256 bytes)))).1.status
        = CheckStatus.Pass) ∧
    (hexEncode (blake2b_256 [0x74])
      = str "bea4bbfe44f2db4c9e32775c1178c391ee22155316be750be8c9d15606e5df10" ∧
     ∀ v, v < 256 → v ≠ 0x74 →
      (evaluate_hash (fun _ => HttpFetch.success [v]) (fun _ => none)
        (some (str "https://x"))
        (some (str "bea4bbfe44f2db4c9e32775c1178c391ee22155316be750be8c9d15606e5df10"))).1.status
        = CheckStatus.Fail) := by
  refine ⟨?_, ?_, ?_, ?_, ?_, ?_, by decide, ?_⟩
  · intro fetch parse url hash h
    cases hb : ((trimStart0x (strTrim hash)).length == 64
        && (trimStart0x (strTrim hash)).all is_ascii_hexdigit) with
    | false =>
      exact evaluate_hash_error _ _ _ _ (fetch_and_hash_badfmt _ _ _ _ hb)
    | true =>
      exfalso
      simp only [Bool.and_eq_true, beq_iff_eq] at hb
      exact h hb
  · intro fetch parse url hash hres
    exact evaluate_hash_error _ _ _ _ (fetch_and_hash_badurl _ _ _ _ hres)
  · intro fetch parse url hash resolved hres hfe
    exact evaluate_hash_error _ _ _ _
      (fetch_and_hash_fetcherr _ _ _ _ resolved hres hfe)
  · intro fetch parse url hash resolved bytes hres hfetch hsize
    exact evaluate_hash_error _ _ _ _
      (fetch_and_hash_oversize _ _ _ _ resolved bytes hres hfetch hsize)
  · intro fetch parse url hash resolved bytes hres hfetch hsize hlen hhex
    exact evaluate_hash_matches fetch parse url hash resolved bytes
      hres hfetch hsize hlen hhex
  · intro fetch parse url resolved bytes hres hfetch hsize
    have hid : trimStart0x (strTrim (hexEncode (blake2b_256 bytes)))
        = hexEncode (blake2b_256 bytes) := by
      rw [strTrim_hexEncode, trimStart0x_of_hex _ (hexEncode_all_hex _)]
    have hlen : (trimStart0x (strTrim (hexEncode (blake2b_256 bytes)))).length
        = 64 := by
      rw [hid, hexEncode_length, blake2b_256_length]
    have hhex : (trimStart0x
        (strTrim (hexEncode (blake2b_256 bytes)))).all is_ascii_hexdigit
        = true := by
      rw [hid]
      exact List.all_eq_true.2 (fun c hc => hexEncode_all_hex _ c hc)
    have hm := evaluate_hash_matches fetch parse url
      (hexEncode (blake2b_256 bytes)) resolved bytes hres hfetch hsize
      hlen hhex
    exact hm.1.2 (by rw [hid, lower_hexEncode])
  · intro v hv hne
    have hm := evaluate_hash_matches (fun _ => HttpFetch.success [v])
      (fun _ => none) (str "https://x")
      (str "bea4bbfe44f2db4c9e32775c1178c391ee22155316be750be8c9d15606e5df10")
      (str "https://x") [v] (by decide) rfl
      (by show (1 : Nat) ≤ DEFAULT_MAX_BYTES
          decide)
      (by decide) (by decide)
    refine hm.2.mpr ?_
    rw [show to_ascii_lowercase (trimStart0x (strTrim (str "bea4bbfe44f2db4c9e32775c1178c391ee22155316be750be8c9d15606e5df10")))
        = str "bea4bbfe44f2db4c9e32775c1178c391ee22155316be750be8c9d15606e5df10" from by decide]
    exact C6_mut_all v hv hne

/-- C6 counterexample to the spec phrase "after stripping an optional 0x
prefix": trim_start_matches strips every leading "0x" repetition, so an
expected hash of "0x0x" followed by the true 64-hex digest is accepted and
the check Passes, where a single optional strip would leave 66 non-hex
characters and mandate Fail. -/
theorem C6_counterexample :
    (evaluate_hash (fun _ => HttpFetch.success [0x74]) (fun _ => none)
      (some (str "https://x"))
      (some (str "0x0xbea4bbfe44f2db4c9e32775c1178c391ee22155316be750be8c9d15606e5df10"))).1.status
      = CheckStatus.Pass := by decide

theorem C6_witness :
    (evaluate_hash (fun _ => HttpFetch.success [0x74]) (fun _ => none)
      (some (str "https://x"))
      (some (hexEncode (blake2b_256 [0x74])))).1.status
      = CheckStatus.Pass :=
  C6_hash_check.2.2.2.2.2.1 (fun _ => HttpFetch.success [0x74]) (fun _ => none)
    (str "https://x") (str "https://x") [0x74] (by decide) rfl (by decide)

theorem decCore_append : ∀ (fuel n : Nat) (acc : Str),
    decCore fuel n acc = decCore fuel n [] ++ acc := by
  intro fuel
  induction fuel with
  | zero => intro n acc; rfl
  | succ fuel ih =>
    intro n acc
    unfold decCore
    by_cases hn : n < 10
    · rw [if_pos hn, if_pos hn]
      rfl
    · rw [if_neg hn, if_neg hn, ih (n / 10) (digitCh (n % 10) :: acc),
        ih (n / 10) [digitCh (n % 10)], List.append_assoc]
      rfl

theorem digitCh_toNat : ∀ d, d < 10 → (digitCh d).toNat = 48 + d := by
  intro d hd
  interval_cases d <;> decide

theorem decVal_decCore : ∀ (fuel n : Nat), n < fuel →
    decVal (decCore fuel n []) = n := by
  intro fuel
  induction fuel with
  | zero => intro n hn; omega
  | succ fuel ih =>
    intro n hn
    unfold decCore
    by_cases h10 : n < 10
    · rw [if_pos h10]
      show 10 * 0 + ((digitCh n).toNat - 48) = n
      rw [digitCh_toNat n h10]
      omega
    · rw [if_neg h10, decCore_append fuel (n / 10) [digitCh (n % 10)]]
      show (decCore fuel (n / 10) [] ++ [digitCh (n % 10)]).foldl
        (fun a c => 10 * a + (c.toNat - 48)) 0 = n
      rw [List.foldl_append]
      show 10 * decVal (decCore fuel (n / 10) []) + ((digitCh (n % 10)).toNat - 48) = n
      rw [ih (n / 10) (by omega), digitCh_toNat (n % 10) (by omega)]
      omega

theorem decVal_decNat (n : Nat) : decVal (decNat n) = n :=
  decVal_decCore (n + 1) n (by omega)

theorem decNat_inj {a b : Nat} (h : decNat a = decNat b) : a = b := by
  have h2 := congrArg decVal h
  rwa [decVal_decNat, decVal_decNat] at h2

theorem digitCh_ne_colon : ∀ d, digitCh d ≠ ':' := by
  intro d
  match d with
  | 0 | 1 | 2 | 3 | 4 | 5 | 6 | 7 | 8 => decide
  | n + 9 =>
    show ('9' : Char) ≠ ':'
    decide

theorem decCore_no_colon : ∀ (fuel n : Nat) (acc : Str),
    (∀ c ∈ acc, c ≠ ':') → ∀ c ∈ decCore fuel n acc, c ≠ ':' := by
  intro fuel
  induction fuel with
  | zero => intro n acc hacc; exact hacc
  | succ fuel ih =>
    intro n acc hacc c hc
    unfold decCore at hc
    by_cases h10 : n < 10
    · rw [if_pos h10] at hc
      rcases List.mem_cons.1 hc with rfl | hc
      · exact digitCh_ne_colon n
      · exact hacc c hc
    · rw [if_neg h10] at hc
      refine ih (n / 10) _ ?_ c hc
      intro x hx
      rcases List.mem_cons.1 hx with rfl | hx
      · exact digitCh_ne_colon _
      · exact hacc x hx

theorem decNat_no_colon (n : Nat) : ∀ c ∈ decNat n, c ≠ ':' :=
  decCore_no_colon (n + 1) n [] (fun c hc => absurd hc (List.not_mem_nil c))

theorem colon_split : ∀ (a1 a2 r1 r2 : Str),
    (∀ c ∈ a1, c ≠ ':') → (∀ c ∈ a2, c ≠ ':') →
    a1 ++ ':' :: r1 = a2 ++ ':' :: r2 → a1 = a2 ∧ r1 = r2 := by
  intro a1
  induction a1 with
  | nil =>
    intro a2 r1 r2 h1 h2 h
    cases a2 with
    | nil =>
      simp only [List.nil_append] at h
      rw [List.cons.injEq] at h
      exact ⟨rfl, h.2⟩
    | cons b t =>
      exfalso
      simp only [List.nil_append, List.cons_append] at h
      rw [List.cons.injEq] at h
      exact h2 b (by simp) h.1.symm
  | cons x xs ih =>
    intro a2 r1 r2 h1 h2 h
    cases a2 with
    | nil =>
      exfalso
      simp only [List.cons_append, List.nil_append] at h
      rw [List.cons.injEq] at h
      exact h1 x (by simp) h.1
    | cons y ys =>
      simp only [List.cons_append] at h
      rw [List.cons.injEq] at h
      obtain ⟨hh, ht⟩ := h
      obtain ⟨he, hr⟩ := ih ys r1 r2
        (fun c hc => h1 c (List.mem_cons_of_mem _ hc))
        (fun c hc => h2 c (List.mem_cons_of_mem _ hc)) ht
      exact ⟨by rw [hh, he], hr⟩

theorem no_colon_ne_append (a b r : Str) (ha : ∀ c ∈ a, c ≠ ':') :
    a ≠ b ++ ':' :: r := by
  intro h
  exact ha ':' (by rw [h]; exact List.mem_append_right _ (by simp)) rfl

theorem strTag_to_string : ∀ k : CacheKey, strTag (CacheKey.to_string k) = keyNum k := by
  intro k
  cases k with
  | DRepsPage p c f => cases f <;> rfl
  | ActionMetadataValidation a m b v => cases m <;> rfl
  | DRep id => rfl
  | DRepDelegators id => rfl
  | DRepVotingHistory id => rfl
  | DRepMetadata id => rfl
  | DRepStats => rfl
  | ActionsPage p c => rfl
  | Action id => rfl
  | ActionVotes id => rfl
  | StakeDelegation sa => rfl
  | EpochStartTime e => rfl

theorem actionsPage_inj (p1 c1 p2 c2 : Nat)
    (h : CacheKey.to_string (.ActionsPage p1 c1)
      = CacheKey.to_string (.ActionsPage p2 c2)) :
    CacheKey.ActionsPage p1 c1 = .ActionsPage p2 c2 := by
  have h2 : decNat p1 ++ (':' :: (str "count=" ++ decNat c1))
      = decNat p2 ++ (':' :: (str "count=" ++ decNat c2)) :=
    List.append_cancel_left
      (h : str "actions_page:page=" ++ (decNat p1 ++ (':' :: (str "count=" ++ decNat c1)))
        = str "actions_page:page=" ++ (decNat p2 ++ (':' :: (str "count=" ++ decNat c2))))
  obtain ⟨hp, hrest⟩ := colon_split _ _ _ _ (decNat_no_colon p1) (decNat_no_colon p2) h2
  rw [decNat_inj hp, decNat_inj (List.append_cancel_left hrest)]

theorem drepsPage_inj (p1 c1 p2 c2 : Nat) (f1 f2 : Option Str)
    (h : CacheKey.to_string (.DRepsPage p1 c1 f1)
      = CacheKey.to_string (.DRepsPage p2 c2 f2)) :
    CacheKey.DRepsPage p1 c1 f1 = .DRepsPage p2 c2 f2 := by
  cases f1 with
  | none =>
    cases f2 with
    | none =>
      have h2 : decNat p1 ++ (':' :: (str "count=" ++ decNat c1))
          = decNat p2 ++ (':' :: (str "count=" ++ decNat c2)) :=
        List.append_cancel_left
          (h : str "dreps_page:page=" ++ _ = str "dreps_page:page=" ++ _)
      obtain ⟨hp, hrest⟩ :=
        colon_split _ _ _ _ (decNat_no_colon p1) (decNat_no_colon p2) h2
      rw [decNat_inj hp, decNat_inj (List.append_cancel_left hrest)]
    | some f =>
      exfalso
      have h2 : decNat p1 ++ (':' :: (str "count=" ++ decNat c1))
          = decNat p2 ++ (':' :: (str "count=" ++ (decNat c2 ++ (str ":filters=" ++ f)))) :=
        List.append_cancel_left
          (h : str "dreps_page:page=" ++ _ = str "dreps_page:page=" ++ _)
      obtain ⟨hp, hrest⟩ :=
        colon_split _ _ _ _ (decNat_no_colon p1) (decNat_no_colon p2) h2
      exact no_colon_ne_append (decNat c1) (decNat c2) (str "filters=" ++ f)
        (decNat_no_colon c1) (List.append_cancel_left hrest)
  | some f =>
    cases f2 with
    | none =>
      exfalso
      have h2 : decNat p1 ++ (':' :: (str "count=" ++ (decNat c1 ++ (str ":filters=" ++ f))))
          = decNat p2 ++ (':' :: (str "count=" ++ decNat c2)) :=
        List.append_cancel_left
          (h : str "dreps_page:page=" ++ _ = str "dreps_page:page=" ++ _)
      obtain ⟨hp, hrest⟩ :=
        colon_split _ _ _ _ (decNat_no_colon p1) (decNat_no_colon p2) h2
      exact no_colon_ne_append (decNat c2) (decNat c1) (str "filters=" ++ f)
        (decNat_no_colon c2) (List.append_cancel_left hrest).symm
    | some g =>
      have h2 : decNat p1 ++ (':' :: (str "count=" ++ (decNat c1 ++ (':' :: (str "filters=" ++ f)))))
          = decNat p2 ++ (':' :: (str "count=" ++ (decNat c2 ++ (':' :: (str "filters=" ++ g))))) :=
        List.append_cancel_left
          (h : str "dreps_page:page=" ++ _ = str "dreps_page:page=" ++ _)
      obtain ⟨hp, hrest⟩ :=
        colon_split _ _ _ _ (decNat_no_colon p1) (decNat_no_colon p2) h2
      obtain ⟨hc, hf⟩ :=
        colon_split _ _ _ _ (decNat_no_colon c1) (decNat_no_colon c2)
          (List.append_cancel_left hrest)
      rw [decNat_inj hp, decNat_inj hc, List.append_cancel_left hf]

theorem boolStr_no_colon (b : Bool) : ∀ c ∈ boolStr b, c ≠ ':' := by
  cases b <;> decide

theorem amv_inj (a1 a2 : Str) (m1 m2 : Option Str) (b1 b2 : Bool) (v1 v2 : Nat)
    (hs1 : CacheKeySafe (.ActionMetadataValidation a1 m1 b1 v1))
    (hs2 : CacheKeySafe (.ActionMetadataValidation a2 m2 b2 v2))
    (h : CacheKey.to_string (.ActionMetadataValidation a1 m1 b1 v1)
      = CacheKey.to_string (.ActionMetadataValidation a2 m2 b2 v2)) :
    CacheKey.ActionMetadataValidation a1 m1 b1 v1
      = .ActionMetadataValidation a2 m2 b2 v2 := by
  have hbool : ∀ (x y : Bool) (r1 r2 : Str),
      boolStr x ++ (':' :: (str "v=" ++ r1)) = boolStr y ++ (':' :: (str "v=" ++ r2)) →
      x = y ∧ r1 = r2 := by
    intro x y r1 r2 hb
    obtain ⟨hxy, hr⟩ :=
      colon_split _ _ _ _ (boolStr_no_colon x) (boolStr_no_colon y) hb
    cases x <;> cases y
    · exact ⟨rfl, List.append_cancel_left hr⟩
    · exact absurd hxy (by decide)
    · exact absurd hxy (by decide)
    · exact ⟨rfl, List.append_cancel_left hr⟩
  cases m1 with
  | some h1 =>
    obtain ⟨ha1, hc1, hl1⟩ := hs1
    cases m2 with
    | some h2' =>
      obtain ⟨ha2, hc2, hl2⟩ := hs2
      have h2 : a1 ++ (':' :: (str "hash=" ++ (to_ascii_lowercase h1 ++ (':' :: (str "verifier=" ++ (boolStr b1 ++ (':' :: (str "v=" ++ decNat v1))))))))
          = a2 ++ (':' :: (str "hash=" ++ (to_ascii_lowercase h2' ++ (':' :: (str "verifier=" ++ (boolStr b2 ++ (':' :: (str "v=" ++ decNat v2)))))))) :=
        List.append_cancel_left
          (h : str "action_metadata:" ++ _ = str "action_metadata:" ++ _)
      rw [hl1, hl2] at h2
      obtain ⟨haid, hrest⟩ := colon_split _ _ _ _
        (fun c hc hceq => ha1 (hceq ▸ hc)) (fun c hc hceq => ha2 (hceq ▸ hc)) h2
      obtain ⟨hhash, hrest2⟩ := colon_split _ _ _ _
        (fun c hc hceq => hc1 (hceq ▸ hc)) (fun c hc hceq => hc2 (hceq ▸ hc))
        (List.append_cancel_left hrest)
      obtain ⟨hb, hv⟩ := hbool b1 b2 _ _ (List.append_cancel_left hrest2)
      rw [haid, hhash, hb, decNat_inj hv]
    | none =>
      exfalso
      obtain ⟨ha2, -⟩ := hs2
      have h2 : a1 ++ (':' :: (str "hash=" ++ (to_ascii_lowercase h1 ++ (str ":verifier=" ++ (boolStr b1 ++ (str ":v=" ++ decNat v1))))))
          = a2 ++ (':' :: (str "nohash:verifier=" ++ (boolStr b2 ++ (str ":v=" ++ decNat v2)))) :=
        List.append_cancel_left
          (h : str "action_metadata:" ++ _ = str "action_metadata:" ++ _)
      obtain ⟨-, hrest⟩ := colon_split _ _ _ _
        (fun c hc hceq => ha1 (hceq ▸ hc)) (fun c hc hceq => ha2 (hceq ▸ hc)) h2
      have hhead : ('h' : Char) = 'n' := by
        have hrest2 : ('h' : Char) :: (str "ash=" ++ (to_ascii_lowercase h1 ++ (str ":verifier=" ++ (boolStr b1 ++ (str ":v=" ++ decNat v1)))))
            = ('n' : Char) :: (str "ohash:verifier=" ++ (boolStr b2 ++ (str ":v=" ++ decNat v2))) := hrest
        injection hrest2
      exact absurd hhead (by decide)
  | none =>
    obtain ⟨ha1, -⟩ := hs1
    cases m2 with
    | some h2' =>
      exfalso
      obtain ⟨ha2, -⟩ := hs2
      have h2 : a1 ++ (':' :: (str "nohash:verifier=" ++ (boolStr b1 ++ (str ":v=" ++ decNat v1))))
          = a2 ++ (':' :: (str "hash=" ++ (to_ascii_lowercase h2' ++ (str ":verifier=" ++ (boolStr b2 ++ (str ":v=" ++ decNat v2)))))) :=
        List.append_cancel_left
          (h : str "action_metadata:" ++ _ = str "action_metadata:" ++ _)
      obtain ⟨-, hrest⟩ := colon_split _ _ _ _
        (fun c hc hceq => ha1 (hceq ▸ hc)) (fun c hc hceq => ha2 (hceq ▸ hc)) h2
      have hhead : ('n' : Char) = 'h' := by
        have hrest2 : ('n' : Char) :: (str "ohash:verifier=" ++ (boolStr b1 ++ (str ":v=" ++ decNat v1)))
            = ('h' : Char) :: (str "ash=" ++ (to_ascii_lowercase h2' ++ (str ":verifier=" ++ (boolStr b2 ++ (str ":v=" ++ decNat v2))))) := hrest
        injection hrest2
      exact absurd hhead (by decide)
    | none =>
      obtain ⟨ha2, -⟩ := hs2
      have h2 : a1 ++ (':' :: (str "nohash:verifier=" ++ (boolStr b1 ++ (':' :: (str "v=" ++ decNat v1)))))
          = a2 ++ (':' :: (str "nohash:verifier=" ++ (boolStr b2 ++ (':' :: (str "v=" ++ decNat v2))))) :=
        List.append_cancel_left
          (h : str "action_metadata:" ++ _ = str "action_metadata:" ++ _)
      obtain ⟨haid, hrest⟩ := colon_split _ _ _ _
        (fun c hc hceq => ha1 (hceq ▸ hc)) (fun c hc hceq => ha2 (hceq ▸ hc)) h2
      obtain ⟨hb, hv⟩ := hbool b1 b2 _ _ (List.append_cancel_left hrest)
      rw [haid, hb, decNat_inj hv]

/-- C4: CacheKey serialization is stable (equal keys give equal strings) and,
under the side conditions that an ActionMetadataValidation key's action_id and
meta_hash contain no ':' and its meta_hash is already lowercase, injective
across all twelve variants and all parameters (ids and filters arbitrary
strings, ActionMetadataValidation with and without a hash). -/
theorem C4_cache_key_serialization :
    (∀ k1 k2 : CacheKey, k1 = k2 →
      CacheKey.to_string k1 = CacheKey.to_string k2) ∧
    (∀ k1 k2 : CacheKey, CacheKeySafe k1 → CacheKeySafe k2 →
      CacheKey.to_string k1 = CacheKey.to_string k2 → k1 = k2) := by
  refine ⟨fun k1 k2 hk => congrArg _ hk, ?_⟩
  intro k1 k2 hs1 hs2 h
  cases k1 <;> cases k2 <;>
    try (have ht := congrArg strTag h;
         rw [strTag_to_string, strTag_to_string] at ht;
         simp only [keyNum] at ht;
         exact absurd ht (by decide))
  all_goals
    first
    | rfl
    | exact congrArg CacheKey.DRep (List.append_cancel_left h)
    | exact congrArg CacheKey.DRepDelegators (List.append_cancel_left h)
    | exact congrArg CacheKey.DRepVotingHistory (List.append_cancel_left h)
    | exact congrArg CacheKey.DRepMetadata (List.append_cancel_left h)
    | exact congrArg CacheKey.Action (List.append_cancel_left h)
    | exact congrArg CacheKey.ActionVotes (List.append_cancel_left h)
    | exact congrArg CacheKey.StakeDelegation (List.append_cancel_left h)
    | exact congrArg CacheKey.EpochStartTime (decNat_inj (List.append_cancel_left h))
    | exact actionsPage_inj _ _ _ _ h
    | exact drepsPage_inj _ _ _ _ _ _ h
    | exact amv_inj _ _ _ _ _ _ _ _ hs1 hs2 h

/-- C4 counterexamples to unconditional injectivity: the meta_hash is
lowercased during rendering, so hashes "AB" and "ab" collide; and a ':' inside
action_id can forge the field structure, so a hash "zz:nohash" on action_id
"a" collides with the hashless key on action_id "a:hash=zz". -/
theorem C4_counterexample :
    (CacheKey.to_string (.ActionMetadataValidation (str "a") (some (str "AB")) true 1)
      = CacheKey.to_string (.ActionMetadataValidation (str "a") (some (str "ab")) true 1) ∧
     CacheKey.ActionMetadataValidation (str "a") (some (str "AB")) true 1
      ≠ .ActionMetadataValidation (str "a") (some (str "ab")) true 1) ∧
    (CacheKey.to_string (.ActionMetadataValidation (str "a") (some (str "zz:nohash")) true 1)
      = CacheKey.to_string (.ActionMetadataValidation (str "a:hash=zz") none true 1) ∧
     CacheKey.ActionMetadataValidation (str "a") (some (str "zz:nohash")) true 1
      ≠ .ActionMetadataValidation (str "a:hash=zz") none true 1) := by
  decide

theorem C4_witness :
    CacheKey.to_string
        (CacheKey.ActionMetadataValidation (str "a") (some (str "ff")) true 3)
      = CacheKey.to_string
        (.ActionMetadataValidation (str "a") (some (str "ff")) true 3) ∧
    CacheKey.ActionMetadataValidation (str "a") (some (str "ff")) true 3
      = .ActionMetadataValidation (str "a") (some (str "ff")) true 3 :=
  ⟨C4_cache_key_serialization.1 _ _ rfl,
   C4_cache_key_serialization.2
     (.ActionMetadataValidation (str "a") (some (str "ff")) true 3)
     (.ActionMetadataValidation (str "a") (some (str "ff")) true 3)
     ⟨by decide, by decide, by decide⟩ ⟨by decide, by decide, by decide⟩ rfl⟩

theorem set_concat {α : Type} (l : List α) (a b : α) :
    (l ++ [a]).set l.length b = l ++ [b] := by
  induction l with
  | nil => rfl
  | cons x t ih => simp [List.set, ih]

theorem overlay_drop (s : ParticipationState) (r : VoteRecord)
    (h : r.voter_type ∉ [str "drep", str "spo", str "stake_pool", str "pool",
      str "cc", str "committee", str "constitutional"]) :
    overlayRecord s r = s := by
  simp only [List.mem_cons, not_or] at h
  obtain ⟨h1, h2, h3, h4, h5, h6, h7, -⟩ := h
  unfold overlayRecord
  rw [if_neg h1, if_neg (by tauto), if_neg (by tauto)]

theorem overlay_drep_new (s : ParticipationState) (r : VoteRecord)
    (htype : r.voter_type = str "drep")
    (hl : List.lookup (to_ascii_lowercase r.voter_identifier) s.drep_lookup
      = none) :
    overlayRecord s r = { s with
      drep_participants := s.drep_participants ++
        [{ drep_id := r.voter_identifier, given_name := none, view := none,
           hex := none, has_profile := none, has_voted := true,
           vote := r.vote, voting_power := r.voting_power,
           tx_hash := r.tx_hash, cert_index := r.cert_index,
           block_time := r.block_time }],
      drep_lookup := (to_ascii_lowercase r.voter_identifier,
        s.drep_participants.length) :: s.drep_lookup } := by
  unfold overlayRecord ensure_drep_participant
  rw [if_pos htype]
  simp only [hl, List.get?_concat_length, set_concat, applyVoteDRep]

theorem overlay_pool_new (s : ParticipationState) (r : VoteRecord)
    (htype : r.voter_type = str "spo" ∨ r.voter_type = str "stake_pool"
      ∨ r.voter_type = str "pool")
    (hl : List.lookup (to_ascii_lowercase r.voter_identifier) s.pool_lookup
      = none) :
    overlayRecord s r = { s with
      pool_participants := s.pool_participants ++
        [{ pool_id := r.voter_identifier, ticker := none, name := none,
           description := none, homepage := none, has_voted := true,
           vote := r.vote, voting_power := r.voting_power,
           tx_hash := r.tx_hash, cert_index := r.cert_index,
           block_time := r.block_time }],
      pool_lookup := (to_ascii_lowercase r.voter_identifier,
        s.pool_participants.length) :: s.pool_lookup } := by
  have hne : ¬ r.voter_type = str "drep" := by
    rcases htype with h | h | h <;> rw [h] <;> decide
  unfold overlayRecord ensure_pool_participant
  rw [if_neg hne, if_pos htype]
  simp only [hl, List.get?_concat_length, set_concat, applyVotePool]

theorem overlay_committee_new (s : ParticipationState) (r : VoteRecord)
    (htype : r.voter_type = str "cc" ∨ r.voter_type = str "committee"
      ∨ r.voter_type = str "constitutional")
    (hl : List.lookup (to_ascii_lowercase r.voter_identifier)
      s.committee_lookup = none) :
    overlayRecord s r = { s with
      committee_participants := s.committee_participants ++
        [{ identifier := r.voter_identifier, role := none, hot_key := none,
           cold_key := none, expiry_epoch := none, has_voted := true,
           vote := r.vote, voting_power := r.voting_power,
           tx_hash := r.tx_hash, cert_index := r.cert_index,
           block_time := r.block_time }],
      committee_lookup := (to_ascii_lowercase r.voter_identifier,
        s.committee_participants.length) :: s.committee_lookup } := by
  have hne1 : ¬ r.voter_type = str "drep" := by
    rcases htype with h | h | h <;> rw [h] <;> decide
  have hne2 : ¬ (r.voter_type = str "spo" ∨ r.voter_type = str "stake_pool"
      ∨ r.voter_type = str "pool") := by
    rcases htype with h | h | h <;> rw [h] <;> decide
  unfold overlayRecord ensure_committee_participant
  rw [if_neg hne1, if_neg hne2, if_pos htype]
  simp only [hl, List.get?_concat_length, set_concat, applyVoteCommittee]

theorem overlay_drep_matched (s : ParticipationState) (r : VoteRecord)
    (idx : Nat) (p : DRepParticipation)
    (htype : r.voter_type = str "drep")
    (hl : List.lookup (to_ascii_lowercase r.voter_identifier) s.drep_lookup
      = some idx)
    (hp : s.drep_participants.get? idx = some p) :
    overlayRecord s r = { s with
      drep_participants := s.drep_participants.set idx (applyVoteDRep r p) } := by
  unfold overlayRecord ensure_drep_participant
  rw [if_pos htype]
  simp only [hl, hp]

theorem overlay_pool_matched (s : ParticipationState) (r : VoteRecord)
    (idx : Nat) (p : StakePoolParticipation)
    (htype : r.voter_type = str "spo" ∨ r.voter_type = str "stake_pool"
      ∨ r.voter_type = str "pool")
    (hl : List.lookup (to_ascii_lowercase r.voter_identifier) s.pool_lookup
      = some idx)
    (hp : s.pool_participants.get? idx = some p) :
    overlayRecord s r = { s with
      pool_participants := s.pool_participants.set idx (applyVotePool r p) } := by
  have hne : ¬ r.voter_type = str "drep" := by
    rcases htype with h | h | h <;> rw [h] <;> decide
  unfold overlayRecord ensure_pool_participant
  rw [if_neg hne, if_pos htype]
  simp only [hl, hp]

theorem overlay_committee_matched (s : ParticipationState) (r : VoteRecord)
    (idx : Nat) (p : CommitteeParticipation)
    (htype : r.voter_type = str "cc" ∨ r.voter_type = str "committee"
      ∨ r.voter_type = str "constitutional")
    (hl : List.lookup (to_ascii_lowercase r.voter_identifier)
      s.committee_lookup = some idx)
    (hp : s.committee_participants.get? idx = some p) :
    overlayRecord s r = { s with
      committee_participants :=
        s.committee_participants.set idx (applyVoteCommittee r p) } := by
  have hne1 : ¬ r.voter_type = str "drep" := by
    rcases htype with h | h | h <;> rw [h] <;> decide
  have hne2 : ¬ (r.voter_type = str "spo" ∨ r.voter_type = str "stake_pool"
      ∨ r.voter_type = str "pool") := by
    rcases htype with h | h | h <;> rw [h] <;> decide
  unfold overlayRecord ensure_committee_participant
  rw [if_neg hne1, if_neg hne2, if_pos htype]
  simp only [hl, hp]

/-- C5: voter-participation overlay.  A vote record with a recognized
voter_type ("drep"; "spo"/"stake_pool"/"pool"; "cc"/"committee"/
"constitutional") is never dropped: when its lowercased identifier matches no
roster lookup entry, a minimal roster entry is synthesized carrying the
record's identifier and vote data with has_voted set, appended to the class
roster and registered in the lookup, and the class summary counts one more
voted and one more total participant; when the identifier matches an
in-bounds roster index, that entry is marked voted with the record's vote
data and the rosters are otherwise unchanged.  A record with any other
voter_type string falls into the empty match arm and leaves the state
untouched. -/
theorem C5_voter_participation :
    (∀ (s : ParticipationState) (r : VoteRecord),
      r.voter_type ∉ [str "drep", str "spo", str "stake_pool", str "pool",
        str "cc", str "committee", str "constitutional"] →
      overlayRecord s r = s) ∧
    (∀ (s : ParticipationState) (r : VoteRecord),
      r.voter_type = str "drep" →
      List.lookup (to_ascii_lowercase r.voter_identifier) s.drep_lookup
        = none →
      overlayRecord s r = { s with
        drep_participants := s.drep_participants ++
          [{ drep_id := r.voter_identifier, given_name := none, view := none,
             hex := none, has_profile := none, has_voted := true,
             vote := r.vote, voting_power := r.voting_power,
             tx_hash := r.tx_hash, cert_index := r.cert_index,
             block_time := r.block_time }],
        drep_lookup := (to_ascii_lowercase r.voter_identifier,
          s.drep_participants.length) :: s.drep_lookup } ∧
      participation_summaries (overlayRecord s r) =
        (calculate_summary (s.drep_participants.length + 1)
          ((s.drep_participants.filter (fun p => p.has_voted)).length + 1),
         calculate_summary s.pool_participants.length
          ((s.pool_participants.filter (fun p => p.has_voted)).length),
         calculate_summary s.committee_participants.length
          ((s.committee_participants.filter (fun p => p.has_voted)).length))) ∧
    (∀ (s : ParticipationState) (r : VoteRecord),
      (r.voter_type = str "spo" ∨ r.voter_type = str "stake_pool"
        ∨ r.voter_type = str "pool") →
      List.lookup (to_ascii_lowercase r.voter_identifier) s.pool_lookup
        = none →
      overlayRecord s r = { s with
        pool_participants := s.pool_participants ++
          [{ pool_id := r.voter_identifier, ticker := none, name := none,
             description := none, homepage := none, has_voted := true,
             vote := r.vote, voting_power := r.voting_power,
             tx_hash := r.tx_hash, cert_index := r.cert_index,
             block_time := r.block_time }],
        pool_lookup := (to_ascii_lowercase r.voter_identifier,
          s.pool_participants.length) :: s.pool_lookup } ∧
      participation_summaries (overlayRecord s r) =
        (calculate_summary s.drep_participants.length
          ((s.drep_participants.filter (fun p => p.has_voted)).length),
         calculate_summary (s.pool_participants.length + 1)
          ((s.pool_participants.filter (fun p => p.has_voted)).length + 1),
         calculate_summary s.committee_participants.length
          ((s.committee_participants.filter (fun p => p.has_voted)).length))) ∧
    (∀ (s : ParticipationState) (r : VoteRecord),
      (r.voter_type = str "cc" ∨ r.voter_type = str "committee"
        ∨ r.voter_type = str "constitutional") →
      List.lookup (to_ascii_lowercase r.voter_identifier) s.committee_lookup
        = none →
      overlayRecord s r = { s with
        committee_participants := s.committee_participants ++
          [{ identifier := r.voter_identifier, role := none, hot_key := none,
             cold_key := none, expiry_epoch := none, has_voted := true,
             vote := r.vote, voting_power := r.voting_power,
             tx_hash := r.tx_hash, cert_index := r.cert_index,
             block_time := r.block_time }],
        committee_lookup := (to_ascii_lowercase r.voter_identifier,
          s.committee_participants.length) :: s.committee_lookup } ∧
      participation_summaries (overlayRecord s r) =
        (calculate_summary s.drep_participants.length
          ((s.drep_participants.filter (fun p => p.has_voted)).length),
         calculate_summary s.pool_participants.length
          ((s.pool_participants.filter (fun p => p.has_voted)).length),
         calculate_summary (s.committee_participants.length + 1)
          ((s.committee_participants.filter (fun p => p.has_voted)).length + 1))) ∧
    (∀ (s : ParticipationState) (r : VoteRecord) (idx : Nat)
        (p : DRepParticipation),
      r.voter_type = str "drep" →
      List.lookup (to_ascii_lowercase r.voter_identifier) s.drep_lookup
        = some idx →
      s.drep_participants.get? idx = some p →
      overlayRecord s r = { s with
        drep_participants :=
          s.drep_participants.set idx (applyVoteDRep r p) }) ∧
    (∀ (s : ParticipationState) (r : VoteRecord) (idx : Nat)
        (p : StakePoolParticipation),
      (r.voter_type = str "spo" ∨ r.voter_type = str "stake_pool"
        ∨ r.voter_type = str "pool") →
      List.lookup (to_ascii_lowercase r.voter_identifier) s.pool_lookup
        = some idx →
      s.pool_participants.get? idx = some p →
      overlayRecord s r = { s with
        pool_participants :=
          s.pool_participants.set idx (applyVotePool r p) }) ∧
    (∀ (s : ParticipationState) (r : VoteRecord) (idx : Nat)
        (p : CommitteeParticipation),
      (r.voter_type = str "cc" ∨ r.voter_type = str "committee"
        ∨ r.voter_type = str "constitutional") →
      List.lookup (to_ascii_lowercase r.voter_identifier) s.committee_lookup
        = some idx →
      s.committee_participants.get? idx = some p →
      overlayRecord s r = { s with
        committee_participants :=
          s.committee_participants.set idx (applyVoteCommittee r p) }) := by
  refine ⟨overlay_drop, ?_, ?_, ?_, overlay_drep_matched,
    overlay_pool_matched, overlay_committee_matched⟩
  · intro s r htype hl
    have hnew := overlay_drep_new s r htype hl
    refine ⟨hnew, ?_⟩
    rw [hnew]
    unfold participation_summaries
    simp [List.filter_append]
  · intro s r htype hl
    have hnew := overlay_pool_new s r htype hl
    refine ⟨hnew, ?_⟩
    rw [hnew]
    unfold participation_summaries
    simp [List.filter_append]
  · intro s r htype hl
    have hnew := overlay_committee_new s r htype hl
    refine ⟨hnew, ?_⟩
    rw [hnew]
    unfold participation_summaries
    simp [List.filter_append]

/-- C5 counterexample to "no cast vote record - regardless of its voter
type - is excluded": a vote record whose voter_type is "unknown" is silently
ignored by the overlay loop, leaving every roster and summary unchanged. -/
theorem C5_counterexample :
    overlayVotes ⟨[], [], [], [], [], []⟩
      [{ voter_type := str "unknown", voter_identifier := str "v",
         vote := some (str "yes"), voting_power := some (str "10"),
         tx_hash := none, cert_index := none, block_time := none }]
      = ⟨[], [], [], [], [], []⟩ := by decide

theorem C5_witness :
    overlayRecord ⟨[], [], [], [], [], []⟩
      { voter_type := str "drep", voter_identifier := str "DRepX",
        vote := some (str "yes"), voting_power := some (str "10"),
        tx_hash := none, cert_index := none, block_time := none }
      = ⟨[{ drep_id := str "DRepX", given_name := none, view := none,
            hex := none, has_profile := none, has_voted := true,
            vote := some (str "yes"), voting_power := some (str "10"),
            tx_hash := none, cert_index := none, block_time := none }],
         [(str "drepx", 0)], [], [], [], []⟩ ∧
    participation_summaries (overlayRecord ⟨[], [], [], [], [], []⟩
      { voter_type := str "drep", voter_identifier := str "DRepX",
        vote := some (str "yes"), voting_power := some (str "10"),
        tx_hash := none, cert_index := none, block_time := none })
      = (calculate_summary 1 1, calculate_summary 0 0, calculate_summary 0 0) :=
  C5_voter_participation.2.1 ⟨[], [], [], [], [], []⟩
    { voter_type := str "drep", voter_identifier := str "DRepX",
      vote := some (str "yes"), voting_power := some (str "10"),
      tx_hash := none, cert_index := none, block_time := none } rfl rfl
